import Mathlib

/-!
# Verification of the comfyui-mcp-server core against its specification

This file gives a shallow embedding, in Lean 4, of the parts of the
comfyui-mcp-server repository that its specification talks about:

* the job-status resolver `get_job` (src/tools/job.py);
* the response builder `register_and_build_response` (src/tools/helpers.py);
* the parameter coercion and model-validation control flow of the
  auto-generated workflow tools (src/tools/generation.py);
* the startup readiness wait `wait_for_comfyui` (src/server.py);
* the `regenerate` tool (src/tools/generation.py), over an explicit object
  heap so that in-place mutation and `copy.deepcopy` are meaningful;
* spec-modelled versions of the components whose source files are not part
  of the provided tree (the remote-execution client's `_wait_for_prompt`
  and the timeout path of `run_custom_workflow` in comfyui_client.py, the
  override reconciliation `apply_workflow_overrides` and the render
  substitution of managers/workflow_manager.py, and the asset registry of
  managers/asset_registry.py); each such definition carries a doc comment
  starting with `Modelled from the spec:`.

Python dictionaries are modelled as association lists with distinct keys
(first-match lookup), Python scalars by the `PyVal` inductive, raised
exceptions by `Except`, and numbers by `Int`/`ℚ`.
-/

set_option maxHeartbeats 1000000

namespace ComfyMCP

/-- A Python float value: a finite value, given as the exact rational the
source text denotes (rounding to the nearest IEEE-754 double is not
modelled), or one of the special values `inf`, `-inf`, `nan`. -/
inductive PyFloat where
  | finite (q : ℚ)
  | inf
  | neginf
  | nan
deriving DecidableEq

/-- Python `==` on floats: `nan` compares unequal to everything, itself
included. -/
def pyFloatBeq : PyFloat → PyFloat → Bool
  | .finite a, .finite b => a == b
  | .inf, .inf => true
  | .neginf, .neginf => true
  | _, _ => false

/-- A Python/JSON value as it appears in workflow graphs, queue snapshots and
history payloads: strings, integers, floats, booleans, `None`, lists, and
dictionaries (association lists, keys unique). -/
inductive PyVal where
  | str (s : String)
  | int (n : Int)
  | float (f : PyFloat)
  | bool (b : Bool)
  | none
  | list (xs : List PyVal)
  | dict (kvs : List (String × PyVal))

mutual

/-- Structural equality on `PyVal`, modelling Python `==` between values of
the same shape (dictionary equality is modelled order-sensitively; the code
only ever compares a value against itself or against a string). -/
def pyBeq : PyVal → PyVal → Bool
  | .str a, .str b => a == b
  | .int a, .int b => a == b
  | .float a, .float b => pyFloatBeq a b
  | .bool a, .bool b => a == b
  | .none, .none => true
  | .list a, .list b => pyBeqList a b
  | .dict a, .dict b => pyBeqKVs a b
  | _, _ => false

def pyBeqList : List PyVal → List PyVal → Bool
  | [], [] => true
  | x :: xs, y :: ys => pyBeq x y && pyBeqList xs ys
  | _, _ => false

def pyBeqKVs : List (String × PyVal) → List (String × PyVal) → Bool
  | [], [] => true
  | (k, v) :: xs, (l, w) :: ys => k == l && pyBeq v w && pyBeqKVs xs ys
  | _, _ => false

end

/-- Python truthiness: empty containers, empty strings, zero and `None` are
falsy, everything else is truthy. -/
def pyTruthy : PyVal → Bool
  | .str s => !(s == "")
  | .int n => !(n == 0)
  | .float (.finite q) => !(q == 0)
  | .float _ => true
  | .bool b => b
  | .none => false
  | .list xs => !xs.isEmpty
  | .dict kvs => !kvs.isEmpty

/-- First-match lookup in an association list, modelling `d[k]` / `d.get(k)`
on a Python dict (keys are unique in a dict, so first match is the match). -/
def lookupAssoc {α : Type} (l : List (String × α)) (k : String) : Option α :=
  (l.find? (fun p => p.1 == k)).map Prod.snd

/-- `sub` occurs as a contiguous substring of `s` (Python `sub in s`). -/
def strContainsSub (s sub : String) : Bool :=
  (List.range (s.length + 1)).any (fun i => sub.data.isPrefixOf (s.data.drop i))

/-- Python `not s or not s.strip()`: the string is empty or entirely
whitespace (equivalently, stripping leaves the empty string). -/
def isBlank (s : String) : Bool :=
  s.data.all Char.isWhitespace

/-- Python `s.upper()` (character-wise uppercasing). -/
def strUpper (s : String) : String := ⟨s.data.map Char.toUpper⟩

/-- Python `s.lower()` (character-wise lowercasing). -/
def strLower (s : String) : String := ⟨s.data.map Char.toLower⟩

/-- Python `str.isspace` — the characters `strip()` removes and `float()`
ignores at the ends: the ASCII/Latin-1 control whitespace and the Unicode
space separators (category Zs). -/
def pyIsSpace (c : Char) : Bool :=
  let n := c.toNat
  (9 ≤ n && n ≤ 13) || (28 ≤ n && n ≤ 32) || n == 0x85 || n == 0xA0 ||
    n == 0x1680 || (0x2000 ≤ n && n ≤ 0x200A) || n == 0x2028 ||
    n == 0x2029 || n == 0x202F || n == 0x205F || n == 0x3000

/-- Python `s.strip()`: drop leading and trailing whitespace. -/
def pyStrip (s : String) : String :=
  ⟨((s.data.dropWhile pyIsSpace).reverse.dropWhile pyIsSpace).reverse⟩

/-- The runs of ten Unicode decimal digits (general category Nd), each given
by the code point of its zero; generated from the Unicode character
database (version 14).  These are exactly the digit characters Python's
`int()` and `float()` accept and map to their ASCII values. -/
def ndZeros : List Nat :=
  [0x30, 0x660, 0x6F0, 0x7C0, 0x966, 0x9E6, 0xA66, 0xAE6,
   0xB66, 0xBE6, 0xC66, 0xCE6, 0xD66, 0xDE6, 0xE50, 0xED0,
   0xF20, 0x1040, 0x1090, 0x17E0, 0x1810, 0x1946, 0x19D0, 0x1A80,
   0x1A90, 0x1B50, 0x1BB0, 0x1C40, 0x1C50, 0xA620, 0xA8D0, 0xA900,
   0xA9D0, 0xA9F0, 0xAA50, 0xABF0, 0xFF10, 0x104A0, 0x10D30, 0x11066,
   0x110F0, 0x11136, 0x111D0, 0x112F0, 0x11450, 0x114D0, 0x11650, 0x116C0,
   0x11730, 0x118E0, 0x11950, 0x11C50, 0x11D50, 0x11DA0, 0x16A60, 0x16AC0,
   0x16B50, 0x1D7CE, 0x1D7D8, 0x1D7E2, 0x1D7EC, 0x1D7F6, 0x1E140, 0x1E2F0,
   0x1E950, 0x1FBF0]

/-- The decimal value of a Unicode decimal-digit character
(`unicodedata.decimal`), `none` for any other character. -/
def decDigitVal? (c : Char) : Option Nat :=
  ndZeros.findSome? (fun z =>
    if z ≤ c.toNat && c.toNat ≤ z + 9 then Option.some (c.toNat - z)
    else Option.none)

/-!
## JobStatusResolver: `get_job` (src/tools/job.py, lines 47-176)

The resolver receives the outcome of the two backend fetches as data:
`queueRes` is the result of `comfyui_client.get_queue()` (a pair of the
`queue_running` and `queue_pending` lists, or the message of a raised
exception), and `histRes` the result of `comfyui_client.get_history(pid)`
(a mapping from prompt id to the history entry object, or an exception
message).  History entries are JSON objects, modelled as association lists.
-/

/-- One history entry: the JSON object stored under a prompt id. -/
abbrev HistEntry := List (String × PyVal)

/-- The result dict built by `get_job`; absent dict keys are `none`. -/
structure JobResult where
  status : String
  prompt_id : String
  message : Option String := Option.none
  execution_id : Option PyVal := Option.none
  position : Option Nat := Option.none
  error : Option PyVal := Option.none
  outputs : Option PyVal := Option.none
  history : Option PyVal := Option.none
  available_prompt_ids : Option (List String) := Option.none

/-- The membership test of the two queue-scan loops in `get_job`
(src/tools/job.py lines 83-85 and 93-95): an item matches when it is a list
of length `> 1` whose second element equals the prompt id (Python `==`
between a string and a non-string is `False`). -/
def queueMatch (pid : String) (item : PyVal) : Bool :=
  match item with
  | .list xs =>
      decide (xs.length > 1) &&
        (match xs[1]? with
         | Option.some (PyVal.str s) => s == pid
         | _ => false)
  | _ => false

/-- `item[0] if len(item) > 0 else None` for a queue item. -/
def queueItemHead : PyVal → Option PyVal
  | .list xs => xs[0]?
  | _ => Option.none

/-- Python `list.index(item)`: index of the first element equal to `item`. -/
def pyIndex (l : List PyVal) (item : PyVal) : Option Nat :=
  l.findIdx? (fun x => pyBeq x item)

mutual

/-- Minimal rendering of a `PyVal` used only to build the human-readable
`message` strings; Python `str()` of a string is the bare string, other
values use a repr-like form. -/
def pyRepr : PyVal → String
  | .str s => "'" ++ s ++ "'"
  | .int n => toString n
  | .float (.finite q) => toString q
  | .float .inf => "inf"
  | .float .neginf => "-inf"
  | .float .nan => "nan"
  | .bool b => if b then "True" else "False"
  | .none => "None"
  | .list xs => "[" ++ String.intercalate ", " (pyReprList xs) ++ "]"
  | .dict kvs => "\x7b" ++ String.intercalate ", " (pyReprKVs kvs) ++ "\x7d"

def pyReprList : List PyVal → List String
  | [] => []
  | x :: xs => pyRepr x :: pyReprList xs

def pyReprKVs : List (String × PyVal) → List String
  | [] => []
  | (k, v) :: xs => ("'" ++ k ++ "': " ++ pyRepr v) :: pyReprKVs xs

end

/-- Python `str(v)`: identity on strings, repr-like otherwise. -/
def pyStr : PyVal → String
  | .str s => s
  | v => pyRepr v

/-- The history phase of `get_job` (src/tools/job.py lines 106-168): reached
only when the prompt id was not found in either queue list (or the queue
fetch itself failed). -/
def getJobHistoryPhase (pid : String)
    (histRes : Except String (List (String × HistEntry))) : JobResult :=
  match histRes with
  | .error e =>
      { status := "error", prompt_id := pid,
        error := Option.some (.str ("Failed to retrieve history: " ++ e)),
        message := Option.some "Could not check job status - ComfyUI may be unavailable" }
  | .ok hist =>
      match lookupAssoc hist pid with
      | Option.some pd =>
          match lookupAssoc pd "error" with
          | Option.some errInfo =>
              { status := "error", prompt_id := pid,
                error := Option.some errInfo,
                history := Option.some (.dict pd),
                message := Option.some ("Job failed with error: " ++ pyStr errInfo) }
          | Option.none =>
              match lookupAssoc pd "outputs" with
              | Option.some outs =>
                  if pyTruthy outs then
                    { status := "completed", prompt_id := pid,
                      outputs := Option.some outs,
                      history := Option.some (.dict pd),
                      message := Option.some "Job completed successfully" }
                  else
                    { status := "processing", prompt_id := pid,
                      message := Option.some "Job completed but outputs not yet available",
                      history := Option.some (.dict pd) }
              | Option.none =>
                  { status := "processing", prompt_id := pid,
                    message := Option.some "Job completed but outputs not yet available",
                    history := Option.some (.dict pd) }
      | Option.none =>
          if hist.length > 0 then
            { status := "not_found", prompt_id := pid,
              message := Option.some "Prompt ID not found in ComfyUI history. It may not have been submitted yet, or ComfyUI may have been restarted.",
              available_prompt_ids := Option.some ((hist.map Prod.fst).take 10) }
          else
            { status := "not_found", prompt_id := pid,
              message := Option.some "Prompt ID not found. ComfyUI history is empty or the job hasn't been recorded." }

/-- `get_job` (src/tools/job.py lines 47-176).  A failed queue fetch falls
through to the history phase; a queue hit returns immediately without ever
looking at `histRes`. -/
def get_job (pid : String)
    (queueRes : Except String (List PyVal × List PyVal))
    (histRes : Except String (List (String × HistEntry))) : JobResult :=
  if isBlank pid then
    { status := "error", prompt_id := pid,
      error := Option.some (.str "Invalid prompt_id: empty or None") }
  else
    match queueRes with
    | .error _ => getJobHistoryPhase pid histRes
    | .ok (qrun, qpend) =>
        match qrun.find? (queueMatch pid) with
        | Option.some item =>
            { status := "running", prompt_id := pid,
              message := Option.some "Job is currently running",
              execution_id := queueItemHead item }
        | Option.none =>
            match qpend.find? (queueMatch pid) with
            | Option.some item =>
                { status := "queued", prompt_id := pid,
                  message := Option.some "Job is queued and waiting to run",
                  position :=
                    match pyIndex qpend item with
                    | Option.some i => Option.some (i + 1)
                    | Option.none => Option.none }
            | Option.none => getJobHistoryPhase pid histRes

/-!
## Workflow graphs and the render/override engine

A workflow graph is a JSON object mapping node ids to
`{ "class_type": <kind>, "inputs": { <name>: <value> } }` (spec §6).
-/

/-- One workflow node: a kind (`class_type`) and keyed inputs. -/
structure Node where
  class_type : String
  inputs : List (String × PyVal)

/-- A workflow graph: node id → node, as an association list. -/
abbrev Graph := List (String × Node)

/-- The placeholder token searched for by the override engine:
`PARAM_` followed by the uppercased override key. -/
def placeholderToken (k : String) : String := "PARAM_" ++ strUpper k

/-- Whether some node input of `g` is exactly the string `tok`. -/
def graphHasToken (g : Graph) (tok : String) : Bool :=
  g.any (fun nd => nd.2.inputs.any (fun kv =>
    match kv.2 with
    | PyVal.str s => s == tok
    | _ => false))

/-- Replace every node input whose value is exactly the string `tok`
with the value `v`, everywhere in the graph. -/
def substToken (g : Graph) (tok : String) (v : PyVal) : Graph :=
  g.map (fun nd =>
    (nd.1, { nd.2 with inputs := nd.2.inputs.map (fun kv =>
      match kv.2 with
      | PyVal.str s => (kv.1, if s == tok then v else kv.2)
      | _ => kv) }))

/-- The override report: which override keys were written into the graph
and which were dropped, with a human-readable reason. -/
structure OverrideReport where
  applied : List (String × PyVal)
  dropped : List (String × String)

/-- Modelled from the spec: the per-key loop of
`WorkflowManager.apply_workflow_overrides` (managers/workflow_manager.py is
not part of the provided tree).  For each override key, the expected
placeholder token is `PARAM_` + uppercased key; an exact string match in at
least one node input substitutes the value everywhere it matches and records
the key in `applied`, otherwise the key lands in `dropped` with a reason
naming the token that was searched for (spec §4.2, and
src/tests/test_bug_fixes.py lines 245-291). -/
def applyOverridesGo (g : Graph) : List (String × PyVal) → Graph × OverrideReport
  | [] => (g, ⟨[], []⟩)
  | kv :: rest =>
      let tok := placeholderToken kv.1
      if graphHasToken g tok then
        let r := applyOverridesGo (substToken g tok kv.2) rest
        (r.1, ⟨kv :: r.2.applied, r.2.dropped⟩)
      else
        let r := applyOverridesGo g rest
        (r.1, ⟨r.2.applied,
               (kv.1, "no placeholder " ++ tok ++ " found in workflow") :: r.2.dropped⟩)

/-- Modelled from the spec: `apply_workflow_overrides(workflow, id, overrides)`
returns the updated graph together with the `OverrideReport`. -/
def applyOverrides (g : Graph) (overrides : List (String × PyVal)) :
    Graph × OverrideReport :=
  applyOverridesGo g overrides

/-!
## Parameter coercion (src/tools/generation.py, lines 33-69) and rendering

Each tool parameter carries a declared scalar annotation.  MCP/JSON-RPC may
pass numbers as strings, so `_tool_impl` coerces string values of
`int`/`float`-annotated parameters before binding; uncoercible values pass
through unchanged for the backend to reject.
-/

/-- A declared parameter annotation (`string|int|float|bool`). -/
inductive PAnn where
  | pstr
  | pint
  | pfloat
  | pbool
deriving DecidableEq

/-- One declared tool parameter (name, annotation, required flag, default). -/
structure ToolParam where
  name : String
  annotation : PAnn
  required : Bool
  default : Option PyVal := Option.none

/-- The combined effect of the guard `value.strip().isdigit()` and the
`int(value)` call in src/tools/generation.py lines 45-47 under the
`except (ValueError, TypeError)` at lines 61-64: the string converts to an
integer exactly when it is a non-empty run of Unicode decimal digits.
(`isdigit()` also accepts characters of Numeric_Type=Digit such as `²`, but
`int()` then raises `ValueError`, which the source catches leaving the
value unchanged — extensionally the same as this predicate being false.) -/
def isDigitStr (s : String) : Bool :=
  decide (s.length > 0) && s.data.all (fun c => (decDigitVal? c).isSome)

/-- `int(s)` on a digit string: the base-10 value of its decimal digits. -/
def digitsVal (s : String) : Nat :=
  s.data.foldl (fun a c => a * 10 + (decDigitVal? c).getD 0) 0

/-- Python `int(x)` on a finite float: truncation toward zero. -/
def pyIntOfRat (q : ℚ) : Int := q.num.tdiv q.den

/-- Split a character list at the first character satisfying `p`:
the part before it and, when found, the part after it. -/
def breakOn (p : Char → Bool) : List Char → List Char × Option (List Char)
  | [] => ([], Option.none)
  | c :: rest =>
      if p c then ([], Option.some rest)
      else
        let r := breakOn p rest
        (c :: r.1, r.2)

/-- No two adjacent underscores. -/
def noDoubleUnderscore : List Char → Bool
  | [] => true
  | [_] => true
  | a :: b :: rest =>
      !(a == '_' && b == '_') && noDoubleUnderscore (b :: rest)

/-- A digit group as `float()`/`int()` accept it under PEP 515: non-empty,
beginning and ending with a decimal digit, containing only decimal digits
and single underscores between digits. -/
def validGroup (l : List Char) : Bool :=
  (match l with
   | [] => false
   | c :: _ => (decDigitVal? c).isSome) &&
  (match l.getLast? with
   | Option.some d => (decDigitVal? d).isSome
   | Option.none => false) &&
  l.all (fun c => (decDigitVal? c).isSome || c == '_') &&
  noDoubleUnderscore l

/-- The base-10 value of a digit group, underscores removed. -/
def groupVal (l : List Char) : Nat :=
  (l.filter (fun c => !(c == '_'))).foldl
    (fun a c => a * 10 + (decDigitVal? c).getD 0) 0

/-- Python `float(s)` (called at src/tools/generation.py line 54): strip
whitespace; an optional sign; then, case-insensitively, `inf`, `infinity`
or `nan`, or a decimal literal `digits [. digits] [(e|E) [sign] digits]`
over Unicode decimal digits with PEP 515 underscores, where at least one
mantissa digit is required.  Returns the parsed value, `none` exactly when
`float()` raises `ValueError`.  The finite result is the exact rational the
literal denotes; rounding to the nearest IEEE double is not modelled. -/
def parseFloat? (s : String) : Option PyFloat :=
  let t := (pyStrip s).data
  let su : Bool × List Char :=
    match t with
    | '-' :: rest => (true, rest)
    | '+' :: rest => (false, rest)
    | l => (false, l)
  let low : String := ⟨su.2.map Char.toLower⟩
  if low == "inf" || low == "infinity" then
    Option.some (if su.1 then PyFloat.neginf else PyFloat.inf)
  else if low == "nan" then
    Option.some PyFloat.nan
  else
    let em := breakOn (fun c => c == 'e' || c == 'E') su.2
    let mant := breakOn (fun c => c == '.') em.1
    let ipart := mant.1
    let okMant :=
      match mant.2 with
      | Option.none => validGroup ipart
      | Option.some fpart =>
          (ipart.isEmpty || validGroup ipart) &&
          (fpart.isEmpty || validGroup fpart) &&
          !(ipart.isEmpty && fpart.isEmpty)
    let fDigits : List Char :=
      match mant.2 with
      | Option.none => []
      | Option.some fpart => fpart.filter (fun c => !(c == '_'))
    let expVal : Option (Bool × Nat) :=
      match em.2 with
      | Option.none => Option.some (false, 0)
      | Option.some epart =>
          match epart with
          | '-' :: r =>
              if validGroup r then Option.some (true, groupVal r)
              else Option.none
          | '+' :: r =>
              if validGroup r then Option.some (false, groupVal r)
              else Option.none
          | r =>
              if validGroup r then Option.some (false, groupVal r)
              else Option.none
    match expVal with
    | Option.none => Option.none
    | Option.some e =>
        if okMant then
          let fLen := fDigits.length
          let mantNum : Nat := groupVal ipart * 10 ^ fLen + groupVal fDigits
          let num : Int :=
            (if su.1 then -(mantNum : Int) else (mantNum : Int)) *
              (if e.1 then 1 else ((10 ^ e.2 : Nat) : Int))
          let den : Nat := 10 ^ fLen * (if e.1 then 10 ^ e.2 else 1)
          Option.some (PyFloat.finite (mkRat num den))
        else Option.none

/-- The per-value coercion cascade of `_tool_impl`
(src/tools/generation.py lines 42-66).  For an `int` annotation: a
whitespace-trimmed digit string becomes the parsed integer, native numbers
are truncated, anything else passes through (`"-5"` has `isdigit() = False`
and passes through); `int(nan)` raises `ValueError`, caught with the value
kept (`int(±inf)` raises `OverflowError`, which the source's except clause
does not catch — the MCP layer cannot deliver infinite floats, and the
model keeps the value unchanged there).  For a `float` annotation: a
parseable string becomes the parsed float, an unparseable one raises
`ValueError` which is caught and the original value kept; native numbers
are widened.  Python `bool` is an instance of `int`, so booleans coerce
numerically.  `None` and other annotations pass through. -/
def coerceValue (ann : PAnn) (v : PyVal) : PyVal :=
  match ann with
  | .pint =>
      match v with
      | .str s => if isDigitStr (pyStrip s) then .int (digitsVal (pyStrip s)) else v
      | .int n => .int n
      | .float (.finite q) => .int (pyIntOfRat q)
      | .float _ => v
      | .bool b => .int (if b then 1 else 0)
      | _ => v
  | .pfloat =>
      match v with
      | .str s =>
          match parseFloat? s with
          | Option.some f => .float f
          | Option.none => v
      | .int n => .float (.finite (n : ℚ))
      | .float f => .float f
      | .bool b => .float (.finite (if b then 1 else 0))
      | _ => v
  | _ => v

/-- The kwargs-coercion loop of `_tool_impl` (src/tools/generation.py lines
35-69): declared parameters are coerced per their annotation, unknown keys
pass through. -/
def coerceKwargs (params : List ToolParam) (kwargs : List (String × PyVal)) :
    List (String × PyVal) :=
  kwargs.map (fun kv =>
    match params.find? (fun p => p.name == kv.1) with
    | Option.some p => (kv.1, coerceValue p.annotation kv.2)
    | Option.none => kv)

/-- The placeholder token of a declared parameter: numeric annotations use
the typed variants `PARAM_INT_<NAME>` / `PARAM_FLOAT_<NAME>`, others the
plain `PARAM_<NAME>` (spec §4.1). -/
def paramToken (p : ToolParam) : String :=
  match p.annotation with
  | .pint => "PARAM_INT_" ++ strUpper p.name
  | .pfloat => "PARAM_FLOAT_" ++ strUpper p.name
  | _ => "PARAM_" ++ strUpper p.name

/-- Modelled from the spec: the substitution step of
`WorkflowManager.render_workflow` (managers/workflow_manager.py is not part
of the provided tree).  For every declared parameter, every node input equal
to the parameter's placeholder token is replaced by the supplied (already
coerced) argument, falling back to the declared default; a missing required
parameter fails with `MissingParameterError` (spec §4.2). -/
def renderWorkflow (g : Graph) (params : List ToolParam)
    (args : List (String × PyVal)) : Except String Graph :=
  match params with
  | [] => .ok g
  | p :: rest =>
      match lookupAssoc args p.name with
      | Option.some v => renderWorkflow (substToken g (paramToken p) v) rest args
      | Option.none =>
          match p.default with
          | Option.some d => renderWorkflow (substToken g (paramToken p) d) rest args
          | Option.none =>
              if p.required then .error ("MissingParameterError: " ++ p.name)
              else renderWorkflow g rest args

/-- The composed pipeline a tool invocation performs: coerce the caller's
kwargs (src/tools/generation.py), then render the template with the coerced
arguments. -/
def renderPipeline (g : Graph) (params : List ToolParam)
    (kwargs : List (String × PyVal)) : Except String Graph :=
  renderWorkflow g params (coerceKwargs params kwargs)

/-!
## AssetRegistry (spec-modelled)

managers/asset_registry.py is not part of the provided tree; the registry is
modelled from spec §4.5 and §3.  The record is generic in the type `ω` of
the stored submitted-workflow payload: the dict-level tools store the
workflow value itself (`ω = PyVal`), while the `regenerate` model stores a
reference into an explicit object heap (`ω = Nat`).  Time is an abstract
`Nat` clock; `expires_at = created_at + ttl`.
-/

/-- One asset record (spec §3, AssetRecord). -/
structure AssetRecord (ω : Type) where
  asset_id : String
  filename : String
  subfolder : String
  folder_type : String
  workflow_id : String
  prompt_id : String
  mime_type : Option String := Option.none
  width : Option Int := Option.none
  height : Option Int := Option.none
  bytes_size : Option Int := Option.none
  comfy_history : Option PyVal := Option.none
  submitted_workflow : Option ω := Option.none
  metadata : List (String × PyVal) := []
  session_id : Option String := Option.none
  created_at : Nat
  expires_at : Nat
  asset_url : Option String := Option.none

/-- The registration descriptor: the keyword arguments of `register_asset`
as called from src/tools/helpers.py lines 45-59. -/
structure AssetDescriptor (ω : Type) where
  filename : String
  subfolder : String
  folder_type : String
  workflow_id : String
  prompt_id : String
  mime_type : Option String := Option.none
  width : Option Int := Option.none
  height : Option Int := Option.none
  bytes_size : Option Int := Option.none
  comfy_history : Option PyVal := Option.none
  submitted_workflow : Option ω := Option.none
  metadata : List (String × PyVal) := []
  session_id : Option String := Option.none

/-- Modelled from the spec: the asset identifier is a deterministic function
of the `(filename, subfolder, folder_type)` triple, independent of time or
randomness (spec §3, §4.5). -/
def assetIdOf (filename subfolder folder_type : String) : String :=
  filename ++ "|" ++ subfolder ++ "|" ++ folder_type

/-- Python `dict.update`: keys of `new` override, other keys of `old` stay. -/
def mergeMeta (old new : List (String × PyVal)) : List (String × PyVal) :=
  old.filter (fun kv => (lookupAssoc new kv.1).isNone) ++ new

/-- Replace the first element satisfying `p` with `x`. -/
def replaceFirst {α : Type} (p : α → Bool) (x : α) : List α → List α
  | [] => []
  | y :: ys => if p y then x :: ys else y :: replaceFirst p x ys

/-- An unexpired record carrying the given asset id (lazy expiry: expired
records are invisible to reads, spec §4.5). -/
def liveWithId {ω : Type} (now : Nat) (aid : String) (r : AssetRecord ω) : Bool :=
  r.asset_id == aid && decide (now < r.expires_at)

/-- Modelled from the spec: the metadata merge an idempotent re-registration
performs on the existing unexpired record — the metadata map is merged and
newly-known mime/dimension/size fields refreshed; identity, timestamps and
the stored submitted workflow are untouched (spec §4.5). -/
def mergeRecord {ω : Type} (r : AssetRecord ω) (d : AssetDescriptor ω) :
    AssetRecord ω :=
  { r with
    metadata := mergeMeta r.metadata d.metadata,
    mime_type := match d.mime_type with
                 | Option.some m => Option.some m
                 | Option.none => r.mime_type,
    width := match d.width with
             | Option.some w => Option.some w
             | Option.none => r.width,
    height := match d.height with
              | Option.some h => Option.some h
              | Option.none => r.height,
    bytes_size := match d.bytes_size with
                  | Option.some b => Option.some b
                  | Option.none => r.bytes_size }

/-- Modelled from the spec: `AssetRegistry.register_asset`
(managers/asset_registry.py is not part of the provided tree).  The identity
is derived from the `(filename, subfolder, folder_type)` triple; if an
unexpired record with that identity exists it is merged via `mergeRecord`
and returned, otherwise a fresh record with `expires_at = now + ttl` is
added (spec §4.5). -/
def register_asset {ω : Type} (reg : List (AssetRecord ω)) (now ttl : Nat)
    (d : AssetDescriptor ω) : List (AssetRecord ω) × AssetRecord ω :=
  let aid := assetIdOf d.filename d.subfolder d.folder_type
  match reg.find? (liveWithId now aid) with
  | Option.some r =>
      (replaceFirst (liveWithId now aid) (mergeRecord r d) reg, mergeRecord r d)
  | Option.none =>
      let fresh : AssetRecord ω :=
        { asset_id := aid,
          filename := d.filename, subfolder := d.subfolder,
          folder_type := d.folder_type,
          workflow_id := d.workflow_id, prompt_id := d.prompt_id,
          mime_type := d.mime_type, width := d.width, height := d.height,
          bytes_size := d.bytes_size, comfy_history := d.comfy_history,
          submitted_workflow := d.submitted_workflow,
          metadata := d.metadata, session_id := d.session_id,
          created_at := now, expires_at := now + ttl }
      (reg ++ [fresh], fresh)

/-- Modelled from the spec: `AssetRegistry.get_asset` returns the unexpired
record with the given id, and `not found` for unknown or expired ids, even
before any sweep has run (spec §4.5). -/
def get_asset {ω : Type} (reg : List (AssetRecord ω)) (now : Nat)
    (aid : String) : Option (AssetRecord ω) :=
  reg.find? (liveWithId now aid)

/-!
## RemoteExecutionClient polling (spec-modelled) and the response builder

comfyui_client.py is not part of the provided tree; `_wait_for_prompt` and
the timeout path of `run_custom_workflow` are modelled from spec §4.3 and
the tests in src/tests/test_bug_fixes.py lines 195-239.  Each polling
attempt's observation of the backend is supplied as data: `fetch k` is the
terminal message (if any) visible on attempt `k`.
-/

/-- Modelled from the spec: the attempt loop of
`ComfyUIClient._wait_for_prompt(prompt_id, max_attempts, interval)`: up to
`max_attempts` fetches of the history entry, returning the first terminal
result immediately, or `none` (never an error) when attempts are exhausted.
Returns the result together with the number of attempts performed. -/
def pollGo {α : Type} (fetch : Nat → Option α) : Nat → Nat → Option α × Nat
  | 0, used => (Option.none, used)
  | n + 1, used =>
      match fetch used with
      | Option.some r => (Option.some r, used + 1)
      | Option.none => pollGo fetch n (used + 1)

/-- Modelled from the spec: `poll(jobId, maxAttempts, interval)`; the sleep
between attempts has no observable effect in this model. -/
def poll {α : Type} (fetch : Nat → Option α) (maxAttempts : Nat) :
    Option α × Nat :=
  pollGo fetch maxAttempts 0

/-- Modelled from the spec: the completion handling of
`ComfyUIClient.run_custom_workflow` after submission succeeded with id
`jobId`: a terminal poll result is returned as-is, and a `null` poll result
(timeout) is converted into the pending job-handle dict
`{status: "running", prompt_id, message}` pointing the caller at `get_job`
(spec §4.3, §6, and src/tests/test_bug_fixes.py lines 214-224). -/
def runCustomWorkflow (jobId : String)
    (fetch : Nat → Option (List (String × PyVal))) (maxAttempts : Nat) :
    List (String × PyVal) :=
  match (poll fetch maxAttempts).1 with
  | Option.some r => r
  | Option.none =>
      [("status", .str "running"),
       ("prompt_id", .str jobId),
       ("message", .str "Workflow submitted but still running. Use get_job with this prompt_id to check completion.")]

/-- `result.get(k, default)` returning a string, for string-valued keys. -/
def dictGetStr (d : List (String × PyVal)) (k : String) (dflt : String) : String :=
  match lookupAssoc d k with
  | Option.some (PyVal.str s) => s
  | _ => dflt

/-- Optional string projection of a dict entry. -/
def dictGetStr? (d : List (String × PyVal)) (k : String) : Option String :=
  match lookupAssoc d k with
  | Option.some (PyVal.str s) => Option.some s
  | _ => Option.none

/-- Optional integer projection of a dict entry. -/
def dictGetInt? (d : List (String × PyVal)) (k : String) : Option Int :=
  match lookupAssoc d k with
  | Option.some (PyVal.int n) => Option.some n
  | _ => Option.none

/-- `Option String` to the `PyVal` stored in a response dict. -/
def optStrVal : Option String → PyVal
  | Option.some s => .str s
  | Option.none => .none

/-- `Option Int` to the `PyVal` stored in a response dict. -/
def optIntVal : Option Int → PyVal
  | Option.some n => .int n
  | Option.none => .none

/-- `register_and_build_response` (src/tools/helpers.py lines 11-115) over
an explicit registry state.  A `status == "running"` result (timeout job
handle) is passed through unchanged and nothing is registered; otherwise the
asset is registered by stable identity and the response dict is built from
the resulting record.  The inline-preview block fetches and encodes image
bytes over the network; its outcome is supplied as data (`preview`: the
data-URI and mime type the encoder produced, or `none` when the fetch or
encode failed, in which case the request succeeds without a preview). -/
def register_and_build_response (result : List (String × PyVal))
    (workflow_id : String) (registry : List (AssetRecord PyVal))
    (now ttl : Nat) (tool_name : Option String := Option.none)
    (return_inline_preview : Bool := false)
    (session_id : Option String := Option.none)
    (preview : Option (String × String) := Option.none) :
    List (String × PyVal) × List (AssetRecord PyVal) :=
  if dictGetStr result "status" "" == "running" then
    (result, registry)
  else
    let asset_metadata : List (String × PyVal) :=
      match lookupAssoc result "asset_metadata" with
      | Option.some (PyVal.dict kvs) => kvs
      | _ => []
    let metadata : List (String × PyVal) :=
      ("workflow_id", .str workflow_id) ::
        (match tool_name with
         | Option.some t => [("tool", .str t)]
         | Option.none => [])
    let rr := register_asset registry now ttl
      { filename := dictGetStr result "filename" "",
        subfolder := dictGetStr result "subfolder" "",
        folder_type := dictGetStr result "folder_type" "output",
        workflow_id := workflow_id,
        prompt_id := dictGetStr result "prompt_id" "",
        mime_type := dictGetStr? asset_metadata "mime_type",
        width := dictGetInt? asset_metadata "width",
        height := dictGetInt? asset_metadata "height",
        bytes_size := dictGetInt? asset_metadata "bytes_size",
        comfy_history := lookupAssoc result "comfy_history",
        submitted_workflow := lookupAssoc result "submitted_workflow",
        metadata := metadata,
        session_id := session_id }
    let rec0 := rr.2
    let asset_url :=
      match rec0.asset_url with
      | Option.some u => u
      | Option.none => dictGetStr result "asset_url" ""
    let base : List (String × PyVal) :=
      [("asset_id", .str rec0.asset_id),
       ("asset_url", .str asset_url),
       ("image_url", .str asset_url),
       ("filename", .str rec0.filename),
       ("subfolder", .str rec0.subfolder),
       ("folder_type", .str rec0.folder_type),
       ("workflow_id", .str workflow_id),
       ("prompt_id", (lookupAssoc result "prompt_id").getD .none),
       ("mime_type", optStrVal rec0.mime_type),
       ("width", optIntVal rec0.width),
       ("height", optIntVal rec0.height),
       ("bytes_size", optIntVal rec0.bytes_size)]
    let withTool :=
      match tool_name with
      | Option.some t => base ++ [("tool", .str t)]
      | Option.none => base
    let supported : List String :=
      ["image/png", "image/jpeg", "image/jpg", "image/webp", "image/gif"]
    let withPreview :=
      if return_inline_preview then
        match rec0.mime_type with
        | Option.some m =>
            if supported.contains m then
              match preview with
              | Option.some pv =>
                  withTool ++
                    [("inline_preview_base64", .str pv.1),
                     ("inline_preview_mime_type", .str pv.2)]
              | Option.none => withTool
            else withTool
        | Option.none => withTool
      else withTool
    let final :=
      match lookupAssoc result "image_base64" with
      | Option.some b64 =>
          withPreview ++
            [("image_base64", b64),
             ("image_mime_type",
              .str (dictGetStr result "image_mime_type" "image/png"))]
      | Option.none => withPreview
    (final, rr.1)

/-!
## Model-validation control flow of `_tool_impl`
(src/tools/generation.py, lines 26-146)

The defaults manager and the namespace determination live in files outside
the provided tree, so their answers are supplied as data (`DefaultsMgr`);
the try-block body after validation (render, submit, response building) is
supplied as an `Except`, a raised exception carrying its message.  The
outcome records, next to the response, whether the pre-submission model
check and the model-related error-recovery check actually ran.
-/

/-- The defaults-manager queries consulted by the model validation
(managers/defaults_manager.py is not part of the provided tree). -/
structure DefaultsMgr where
  get_default : String → String → Option PyVal → Option String
  is_model_valid : String → String → Bool
  validate_default_model : String → Bool × String × String
  available_models : List String

/-- Python repr of a list of strings (used in the error message). -/
def strListRepr (l : List String) : String :=
  "[" ++ String.intercalate ", " (l.map (fun s => "'" ++ s ++ "'")) ++ "]"

/-- The model-not-found error message built by `_tool_impl`
(src/tools/generation.py lines 90-101 and 131-142). -/
def modelErrorMsg (dm : DefaultsMgr) (ns : String) : String :=
  let v := dm.validate_default_model ns
  let base := "Default model '" ++ v.2.1 ++ "' (from " ++ v.2.2 ++
    " defaults) not found in ComfyUI checkpoints. Set a valid model via `set_defaults`, config file, or env var. Try `list_models` to see available checkpoints."
  let sample := dm.available_models.take 5
  if sample.isEmpty then base
  else base ++ " Available models: " ++ strListRepr sample

/-- A workflow-backed tool definition (models.workflow.WorkflowToolDefinition
as consumed by src/tools/generation.py). -/
structure ToolDefn where
  workflow_id : String
  tool_name : String
  parameters : List ToolParam
  output_preferences : List String
  description : String := ""

/-- The namespace refinement of `_tool_impl` (src/tools/generation.py lines
74-80): the manager's content-derived namespace is overridden to
audio/video when the definition's output preferences equal the
corresponding marker set; the marker constants live in
managers/workflow_manager.py (not in the tree) and are passed in. -/
def refineNamespace (audioKeys videoKeys : List String)
    (outputPrefs : List String) (nsFromManager : String) : String :=
  if outputPrefs == audioKeys then "audio"
  else if outputPrefs == videoKeys then "video"
  else nsFromManager

/-- The outcome of one `_tool_impl` invocation, instrumented with whether
each model-availability check ran. -/
structure ToolRunOutcome where
  response : List (String × PyVal)
  preModelCheckRan : Bool
  recoveryModelCheckRan : Bool

/-- The validation-and-recovery skeleton of `_tool_impl`
(src/tools/generation.py lines 82-146).  `has_model_param` is key membership
of `"model"` in the declared parameter dict; the pre-submission check runs
exactly when it holds, and the recovery check additionally requires the
exception text to mention model/checkpoint/ckpt. -/
def toolImplValidate (defn : ToolDefn) (dm dmRefreshed : DefaultsMgr)
    (args : List (String × PyVal)) (ns : String)
    (body : Except String (List (String × PyVal))) : ToolRunOutcome :=
  let has_model_param := (defn.parameters.find? (fun p => p.name == "model")).isSome
  let preFail : Option String :=
    if has_model_param then
      match dm.get_default ns "model" (lookupAssoc args "model") with
      | Option.some m =>
          if !(dm.is_model_valid ns m) then Option.some (modelErrorMsg dm ns)
          else Option.none
      | Option.none => Option.none
    else Option.none
  match preFail with
  | Option.some msg =>
      { response := [("error", .str msg)],
        preModelCheckRan := has_model_param, recoveryModelCheckRan := false }
  | Option.none =>
      match body with
      | .ok resp =>
          { response := resp,
            preModelCheckRan := has_model_param, recoveryModelCheckRan := false }
      | .error e =>
          let es := strLower e
          let mentionsModel := strContainsSub es "model" ||
            strContainsSub es "checkpoint" || strContainsSub es "ckpt"
          if has_model_param && mentionsModel then
            match dmRefreshed.get_default ns "model" (lookupAssoc args "model") with
            | Option.some m =>
                if !(dmRefreshed.is_model_valid ns m) then
                  { response := [("error", .str (modelErrorMsg dmRefreshed ns))],
                    preModelCheckRan := has_model_param,
                    recoveryModelCheckRan := true }
                else
                  { response := [("error", .str e)],
                    preModelCheckRan := has_model_param,
                    recoveryModelCheckRan := true }
            | Option.none =>
                { response := [("error", .str e)],
                  preModelCheckRan := has_model_param,
                  recoveryModelCheckRan := true }
          else
            { response := [("error", .str e)],
              preModelCheckRan := has_model_param,
              recoveryModelCheckRan := false }

/-!
## Startup readiness wait (src/server.py, lines 76-116)

`wait_for_comfyui` probes availability up to `max_retries` times, sleeping
between consecutive failed attempts; the sleep durations are returned as a
list (in order), together with the number of probes performed.  Delays are
Python floats, modelled as rationals (doubling and `min` are exact).
-/

/-- The attempt loop of `wait_for_comfyui` (src/server.py lines 97-115):
`remaining` attempts left, `attempt` the 1-based index of the next probe,
`delay` the current sleep duration.  A successful probe returns immediately;
after a failed non-final attempt the loop sleeps `delay` and doubles it,
capped at `maxd`; the final failed attempt does not sleep. -/
def waitDelays (probe : Nat → Bool) (maxd : ℚ) :
    Nat → Nat → ℚ → Bool × List ℚ × Nat
  | 0, _, _ => (false, [], 0)
  | remaining + 1, attempt, delay =>
      if probe attempt then (true, [], 1)
      else if remaining = 0 then (false, [], 1)
      else
        let r := waitDelays probe maxd remaining (attempt + 1) (min (delay * 2) maxd)
        (r.1, delay :: r.2.1, r.2.2 + 1)

/-- `wait_for_comfyui(base_url, max_retries, initial_delay, max_delay)`
(src/server.py lines 76-116): the boolean result, the sleeps performed, and
the number of probes made. -/
def wait_for_comfyui (probe : Nat → Bool) (max_retries : Nat)
    (initial_delay max_delay : ℚ) : Bool × List ℚ × Nat :=
  waitDelays probe max_delay max_retries 1 initial_delay

/-!
## `regenerate` over an explicit object heap
(src/tools/generation.py, lines 220-336 and 339-431)

Python mutates workflow dicts in place and `copy.deepcopy` is what protects
the stored graph, so graphs live in an explicit heap of cells; asset records
hold references (`AssetRecord Nat`).  `deepcopy` allocates a fresh cell with
the same contents; the in-place update helpers write through the reference
they were given.
-/

/-- One entry of the `param_mappings` table of `_update_workflow_params`
(src/tools/generation.py lines 240-256). -/
structure ParamMapping where
  class_type : Option String
  input_key : String
  is_negative : Bool := false

/-- The `param_mappings` table (src/tools/generation.py lines 240-256). -/
def paramMappings : List (String × ParamMapping) :=
  [("prompt", ⟨Option.some "CLIPTextEncode", "text", false⟩),
   ("negative_prompt", ⟨Option.some "CLIPTextEncode", "text", true⟩),
   ("steps", ⟨Option.some "KSampler", "steps", false⟩),
   ("cfg", ⟨Option.some "KSampler", "cfg", false⟩),
   ("sampler_name", ⟨Option.some "KSampler", "sampler_name", false⟩),
   ("scheduler", ⟨Option.some "KSampler", "scheduler", false⟩),
   ("denoise", ⟨Option.some "KSampler", "denoise", false⟩),
   ("width", ⟨Option.some "EmptyLatentImage", "width", false⟩),
   ("height", ⟨Option.some "EmptyLatentImage", "height", false⟩),
   ("model", ⟨Option.some "CheckpointLoaderSimple", "ckpt_name", false⟩),
   ("tags", ⟨Option.none, "tags", false⟩),
   ("lyrics", ⟨Option.none, "lyrics", false⟩),
   ("seconds", ⟨Option.none, "seconds", false⟩),
   ("lyrics_strength", ⟨Option.none, "lyrics_strength", false⟩)]

/-- Overwrite the value stored under an existing input key
(`inputs[k] = v` when `k` is present; dict keys are unique). -/
def setInput (n : Node) (k : String) (v : PyVal) : Node :=
  { n with inputs := n.inputs.map (fun kv => if kv.1 == k then (kv.1, v) else kv) }

/-- `inputs[k] = v` without a presence guard: overwrite or create the key. -/
def setInputAlways (n : Node) (k : String) (v : PyVal) : Node :=
  if (lookupAssoc n.inputs k).isSome then setInput n k v
  else { n with inputs := n.inputs ++ [(k, v)] }

/-- Python `str(node_data)` for the substring heuristics of
`_update_workflow_params`: the repr of the node's dict
(inputs first, then class_type, matching the template files' key order). -/
def nodeRepr (n : Node) : String :=
  "\x7b'inputs': " ++ pyRepr (.dict n.inputs) ++ ", 'class_type': '" ++
    n.class_type ++ "'\x7d"

/-- The per-parameter node scan of `_update_workflow_params`
(src/tools/generation.py lines 258-304): nodes are filtered by the mapping's
class type and the presence of the target input; `prompt` and
`negative_prompt` additionally use the documented best-effort substring
heuristic on the node's repr and id. -/
def updateOneParam (g : Graph) (param_name : String) (v : PyVal) : Graph :=
  match lookupAssoc paramMappings param_name with
  | Option.none => g
  | Option.some m =>
      g.map (fun nd =>
        let nid := nd.1
        let n := nd.2
        if (match m.class_type with
            | Option.some ct => !(n.class_type == ct)
            | Option.none => false) then nd
        else if (lookupAssoc n.inputs m.input_key).isNone then nd
        else if param_name == "negative_prompt" && m.is_negative then
          if strContainsSub (strLower (nodeRepr n)) "negative" ||
              strContainsSub (strLower nid) "neg" then
            (nid, setInput n m.input_key v)
          else nd
        else if param_name == "prompt" && !m.is_negative then
          if !(strContainsSub (strLower (nodeRepr n)) "negative") &&
              !(strContainsSub (strLower nid) "neg") then
            (nid, setInput n m.input_key v)
          else nd
        else (nid, setInput n m.input_key v))

/-- `_update_workflow_params(workflow, param_overrides)`
(src/tools/generation.py lines 220-306), as a pure function on the graph the
in-place mutation targets. -/
def updateWorkflowParams (g : Graph) (overrides : List (String × PyVal)) : Graph :=
  overrides.foldl (fun acc kv => updateOneParam acc kv.1 kv.2) g

/-- `_update_seed(workflow, seed)` (src/tools/generation.py lines 309-336):
`-1` keeps the original seed, `None` substitutes the freshly drawn random
seed (supplied as data), otherwise the given seed is written into every
KSampler node's `seed` input. -/
def updateSeed (g : Graph) (seed : Option Int) (randSeed : Int) : Graph :=
  if seed == Option.some (-1) then g
  else
    let s : Int := match seed with
      | Option.some s => s
      | Option.none => randSeed
    g.map (fun nd =>
      if nd.2.class_type == "KSampler" then (nd.1, setInputAlways nd.2 "seed" (.int s))
      else nd)

/-- The object heap: cells hold workflow graphs; a reference is an index. -/
structure Heap where
  cells : List Graph

/-- Dereference (out-of-range reads give the empty graph). -/
def Heap.read (h : Heap) (r : Nat) : Graph := h.cells.getD r []

/-- In-place mutation through a reference. -/
def Heap.write (h : Heap) (r : Nat) (g : Graph) : Heap := ⟨h.cells.set r g⟩

/-- `copy.deepcopy`: allocate a fresh cell with the same contents and return
the new, independent reference. -/
def Heap.alloc (h : Heap) (g : Graph) : Heap × Nat :=
  (⟨h.cells ++ [g]⟩, h.cells.length)

/-- The backend's answer to `run_custom_workflow` inside `regenerate`, with
the submitted workflow carried as a heap reference. -/
structure RunResultRef where
  status : String
  filename : String := ""
  subfolder : String := ""
  folder_type : String := "output"
  prompt_id : String := ""
  mime_type : Option String := Option.none
  width : Option Int := Option.none
  height : Option Int := Option.none
  bytes_size : Option Int := Option.none
  comfy_history : Option PyVal := Option.none
  submitted_workflow : Option Nat := Option.none
  asset_url : String := ""

/-- The registry effect of `register_and_build_response`
(src/tools/helpers.py lines 35-59) in the heap model: a
`status == "running"` result registers nothing; otherwise the asset is
registered by stable identity, storing the submitted-workflow reference from
the backend result.  The response dict built afterwards is the same pure
projection as in `register_and_build_response` above and touches neither
registry nor heap. -/
def registerEffect (result : RunResultRef) (workflow_id : String)
    (registry : List (AssetRecord Nat)) (now ttl : Nat)
    (tool_name : Option String) (session_id : Option String) :
    List (AssetRecord Nat) :=
  if result.status == "running" then registry
  else
    (register_asset registry now ttl
      { filename := result.filename,
        subfolder := result.subfolder,
        folder_type := result.folder_type,
        workflow_id := workflow_id,
        prompt_id := result.prompt_id,
        mime_type := result.mime_type,
        width := result.width, height := result.height,
        bytes_size := result.bytes_size,
        comfy_history := result.comfy_history,
        submitted_workflow := result.submitted_workflow,
        metadata :=
          ("workflow_id", .str workflow_id) ::
            (match tool_name with
             | Option.some t => [("tool", .str t)]
             | Option.none => []),
        session_id := session_id }).1

/-- The output-preference inference of `regenerate`
(src/tools/generation.py lines 401-412). -/
def regenOutputPrefs (workflow_id : String) : Option (List String) :=
  if workflow_id == "" then Option.none
  else
    let w := strLower workflow_id
    if strContainsSub w "image" then
      Option.some ["images", "image", "gifs", "gif"]
    else if strContainsSub w "audio" || strContainsSub w "song" then
      Option.some ["audio", "audios", "sound", "files"]
    else if strContainsSub w "video" then
      Option.some ["videos", "video", "mp4", "mov", "webm"]
    else Option.none

/-- The outcome of a `regenerate` call in the heap model. -/
structure RegenOutcome where
  heap : Heap
  registry : List (AssetRecord Nat)
  ok : Bool

/-- `regenerate(asset_id, seed, return_inline_preview, param_overrides)`
(src/tools/generation.py lines 346-431) over the explicit heap: look up the
asset, fail on a missing or empty stored workflow, deep-copy the stored
graph, apply overrides (a `None` or empty override dict is falsy and
skipped) and the seed update to the copy, infer output preferences, submit
to the backend (whose answer, or raised exception, is supplied as data) and
register the produced asset; a raised exception yields the error response
with no registration. -/
def regenerate (h : Heap) (reg : List (AssetRecord Nat)) (now ttl : Nat)
    (asset_id : String) (seed : Option Int)
    (param_overrides : Option (List (String × PyVal))) (randSeed : Int)
    (backend : Nat → Option (List String) → Graph → Except String RunResultRef) :
    RegenOutcome :=
  match get_asset reg now asset_id with
  | Option.none => ⟨h, reg, false⟩
  | Option.some asset =>
      match asset.submitted_workflow with
      | Option.none => ⟨h, reg, false⟩
      | Option.some wref =>
          if (h.read wref).isEmpty then ⟨h, reg, false⟩
          else
            let al := h.alloc (h.read wref)
            let h1 := al.1
            let r := al.2
            let h2 :=
              match param_overrides with
              | Option.some ov =>
                  if ov.isEmpty then h1
                  else h1.write r (updateWorkflowParams (h1.read r) ov)
              | Option.none => h1
            let h3 := h2.write r (updateSeed (h2.read r) seed randSeed)
            let prefs := regenOutputPrefs asset.workflow_id
            match backend r prefs (h3.read r) with
            | .error _ => ⟨h3, reg, false⟩
            | .ok result =>
                let reg' := registerEffect result asset.workflow_id reg now ttl
                  (Option.some "regenerate") asset.session_id
                ⟨h3, reg', true⟩

/-!
## Theorems

The claims of the specification, settled against the embedding above.
-/

/-- C1: a job id with a matching item in the queue's running list resolves to
status `running`, carrying the execution identifier (the item's first
element), and whenever the id matches in the running or the pending list the
result does not depend on the history lookup at all — history is consulted
only when the id is absent from both lists. -/
theorem c1_running_precedence (pid : String) (hpid : isBlank pid = false)
    (qrun qpend : List PyVal)
    (h1 h2 : Except String (List (String × HistEntry))) :
    (((qrun.find? (queueMatch pid)).isSome ∨ (qpend.find? (queueMatch pid)).isSome) →
      get_job pid (.ok (qrun, qpend)) h1 = get_job pid (.ok (qrun, qpend)) h2)
    ∧ (∀ item, qrun.find? (queueMatch pid) = Option.some item →
        (get_job pid (.ok (qrun, qpend)) h1).status = "running"
        ∧ (get_job pid (.ok (qrun, qpend)) h1).execution_id = queueItemHead item) := by
  constructor
  · rintro (hr | hp)
    · obtain ⟨item, hi⟩ := Option.isSome_iff_exists.mp hr
      simp [get_job, hpid, hi]
    · cases hr : qrun.find? (queueMatch pid) with
      | some item => simp [get_job, hpid, hr]
      | none =>
          obtain ⟨item, hi⟩ := Option.isSome_iff_exists.mp hp
          simp [get_job, hpid, hr, hi]
  · intro item hi
    constructor <;> simp [get_job, hpid, hi]

/-- C1 witness: a concrete id in the running list resolves to `running` with
its execution id even though history holds a completed entry for it. -/
theorem c1_running_precedence_witness :
    (get_job "p" (.ok ([.list [.str "e1", .str "p"]], []))
        (.ok [("p", [("outputs", .dict [("9", .dict [("images", .list [.str "out.png"])])])])])).status
      = "running"
    ∧ (get_job "p" (.ok ([.list [.str "e1", .str "p"]], []))
        (.ok [("p", [("outputs", .dict [("9", .dict [("images", .list [.str "out.png"])])])])])).execution_id
      = Option.some (.str "e1") :=
  (c1_running_precedence "p" (by decide) [.list [.str "e1", .str "p"]] []
      (.ok [("p", [("outputs", .dict [("9", .dict [("images", .list [.str "out.png"])])])])])
      (.ok [])).2
    (.list [.str "e1", .str "p"]) (by rfl)

/-- C2: for an id absent from both queue lists, the history lookup fully
determines the outcome: an `error` field yields status `error` with the
diagnostics; otherwise a non-empty `outputs` field yields `completed` with
the outputs; an entry with neither yields `processing`; no entry yields
`not_found`. -/
theorem c2_history_outcomes (pid : String) (hpid : isBlank pid = false)
    (qrun qpend : List PyVal)
    (hrun : qrun.find? (queueMatch pid) = Option.none)
    (hpend : qpend.find? (queueMatch pid) = Option.none)
    (hist : List (String × HistEntry)) :
    (∀ pd, lookupAssoc hist pid = Option.some pd →
      ((∀ e, lookupAssoc pd "error" = Option.some e →
          (get_job pid (.ok (qrun, qpend)) (.ok hist)).status = "error"
          ∧ (get_job pid (.ok (qrun, qpend)) (.ok hist)).error = Option.some e)
       ∧ (lookupAssoc pd "error" = Option.none →
          ((∀ outs, lookupAssoc pd "outputs" = Option.some outs → pyTruthy outs = true →
              (get_job pid (.ok (qrun, qpend)) (.ok hist)).status = "completed"
              ∧ (get_job pid (.ok (qrun, qpend)) (.ok hist)).outputs = Option.some outs)
           ∧ ((∀ o, lookupAssoc pd "outputs" = Option.some o → pyTruthy o = false) →
              (get_job pid (.ok (qrun, qpend)) (.ok hist)).status = "processing")))))
    ∧ (lookupAssoc hist pid = Option.none →
        (get_job pid (.ok (qrun, qpend)) (.ok hist)).status = "not_found") := by
  have hred : get_job pid (.ok (qrun, qpend)) (.ok hist)
      = getJobHistoryPhase pid (.ok hist) := by
    simp [get_job, hpid, hrun, hpend]
  rw [hred]
  constructor
  · intro pd hpd
    constructor
    · intro e he
      constructor <;> simp [getJobHistoryPhase, hpd, he]
    · intro hne
      constructor
      · intro outs houts htr
        constructor <;> simp [getJobHistoryPhase, hpd, hne, houts, htr]
      · intro hfals
        cases houts : lookupAssoc pd "outputs" with
        | some o =>
            have := hfals o houts
            simp [getJobHistoryPhase, hpd, hne, houts, this]
        | none => simp [getJobHistoryPhase, hpd, hne, houts]
  · intro hnone
    simp only [getJobHistoryPhase, hnone]
    split <;> rfl

/-- C2 witness: the four outcomes at concrete inputs. -/
theorem c2_history_outcomes_witness :
    (get_job "p" (.ok ([], [])) (.ok [("p", [("error", .str "boom")])])).status = "error"
    ∧ (get_job "p" (.ok ([], [])) (.ok [("p", [("error", .str "boom")])])).error
        = Option.some (.str "boom")
    ∧ (get_job "q" (.ok ([], [])) (.ok [("p", [("error", .str "boom")])])).status
        = "not_found" :=
  have h1 := c2_history_outcomes "p" (by decide) [] [] rfl rfl
    [("p", [("error", .str "boom")])]
  have h2 := c2_history_outcomes "q" (by decide) [] [] rfl rfl
    [("p", [("error", .str "boom")])]
  have he := (h1.1 [("error", .str "boom")] rfl).1 (.str "boom") rfl
  ⟨he.1, he.2, h2.2 rfl⟩

/-- C8: resolution is fault-tolerant per data source: a failed queue fetch
behaves exactly like an empty queue (the history lookup alone decides), and
a failed history fetch (for an id absent from the queue) yields status
`error` whose error field quotes the history-lookup failure itself. -/
theorem c8_fault_tolerance (pid : String) (hpid : isBlank pid = false) :
    (∀ e histRes, get_job pid (.error e) histRes = get_job pid (.ok ([], [])) histRes)
    ∧ (∀ qrun qpend e, qrun.find? (queueMatch pid) = Option.none →
        qpend.find? (queueMatch pid) = Option.none →
        (get_job pid (.ok (qrun, qpend)) (.error e)).status = "error"
        ∧ (get_job pid (.ok (qrun, qpend)) (.error e)).error
            = Option.some (.str ("Failed to retrieve history: " ++ e))) := by
  constructor
  · intro e histRes
    simp [get_job, hpid]
  · intro qrun qpend e hrun hpend
    constructor <;> simp [get_job, hpid, hrun, hpend, getJobHistoryPhase]

/-- C8 witness: concrete queue failure degrading to history, and concrete
history failure reported as an error carrying the lookup failure. -/
theorem c8_fault_tolerance_witness :
    get_job "p" (.error "connection refused") (.ok [("p", [("outputs", .dict [("9", .dict [("x", .int 1)])])])])
      = get_job "p" (.ok ([], [])) (.ok [("p", [("outputs", .dict [("9", .dict [("x", .int 1)])])])])
    ∧ (get_job "p" (.ok ([], [])) (.error "timeout")).status = "error"
    ∧ (get_job "p" (.ok ([], [])) (.error "timeout")).error
        = Option.some (.str "Failed to retrieve history: timeout") :=
  have h := c8_fault_tolerance "p" (by decide)
  have h2 := h.2 [] [] "timeout" rfl rfl
  ⟨h.1 "connection refused" (.ok [("p", [("outputs", .dict [("9", .dict [("x", .int 1)])])])]),
   h2.1, h2.2⟩

/-- When no attempt ever observes a terminal message, the poll loop walks
through all remaining attempts and answers `none`. -/
theorem pollGo_none {α : Type} (fetch : Nat → Option α)
    (hterm : ∀ k, fetch k = Option.none) :
    ∀ n used, pollGo fetch n used = (Option.none, used + n) := by
  intro n
  induction n with
  | zero => intro used; rfl
  | succ m ih =>
      intro used
      have hstep : pollGo fetch (m + 1) used = pollGo fetch m (used + 1) := by
        simp [pollGo, hterm used]
      rw [hstep, ih (used + 1)]
      congr 1
      omega

/-- C3: a poll against a backend that never reports a terminal message
returns `none` (not an error) after exactly `maxAttempts` attempts; the
caller-facing path turns that `none` into a pending job-handle dict with
status `running` and the submitted job id, and `register_and_build_response`
passes that handle through unchanged, registering nothing. -/
theorem c3_timeout_pending (fetch : Nat → Option (List (String × PyVal)))
    (maxAttempts : Nat) (jobId wf : String)
    (registry : List (AssetRecord PyVal)) (now ttl : Nat)
    (tn : Option String) (rip : Bool) (sid : Option String)
    (pv : Option (String × String))
    (hterm : ∀ k, fetch k = Option.none) :
    poll fetch maxAttempts = (Option.none, maxAttempts)
    ∧ lookupAssoc (runCustomWorkflow jobId fetch maxAttempts) "status"
        = Option.some (.str "running")
    ∧ lookupAssoc (runCustomWorkflow jobId fetch maxAttempts) "prompt_id"
        = Option.some (.str jobId)
    ∧ register_and_build_response (runCustomWorkflow jobId fetch maxAttempts)
          wf registry now ttl tn rip sid pv
        = (runCustomWorkflow jobId fetch maxAttempts, registry) := by
  have hp : poll fetch maxAttempts = (Option.none, maxAttempts) := by
    have := pollGo_none fetch hterm maxAttempts 0
    simpa [poll] using this
  have hrun : runCustomWorkflow jobId fetch maxAttempts
      = [("status", .str "running"), ("prompt_id", .str jobId),
         ("message", .str "Workflow submitted but still running. Use get_job with this prompt_id to check completion.")] := by
    simp [runCustomWorkflow, hp]
  refine ⟨hp, ?_, ?_, ?_⟩ <;>
    rw [hrun] <;>
    simp [register_and_build_response, lookupAssoc, dictGetStr]

/-- C3 witness: two exhausted attempts against a silent backend give `none`,
a `running` handle carrying the job id, and an unchanged passthrough. -/
theorem c3_timeout_pending_witness :
    poll (fun _ => (Option.none : Option (List (String × PyVal)))) 2
      = (Option.none, 2)
    ∧ lookupAssoc (runCustomWorkflow "job-1" (fun _ => Option.none) 2) "status"
        = Option.some (.str "running")
    ∧ lookupAssoc (runCustomWorkflow "job-1" (fun _ => Option.none) 2) "prompt_id"
        = Option.some (.str "job-1")
    ∧ register_and_build_response (runCustomWorkflow "job-1" (fun _ => Option.none) 2)
          "wf" [] 0 24 Option.none false Option.none Option.none
        = (runCustomWorkflow "job-1" (fun _ => Option.none) 2, []) :=
  c3_timeout_pending (fun _ => Option.none) 2 "job-1" "wf" [] 0 24
    Option.none false Option.none Option.none (fun _ => rfl)

/-- Every override key ends up in exactly the union of applied and dropped:
key-set completeness of the override loop. -/
theorem applyOverridesGo_keys (g : Graph) (ov : List (String × PyVal)) (k : String) :
    (k ∈ (applyOverridesGo g ov).2.applied.map Prod.fst
      ∨ k ∈ (applyOverridesGo g ov).2.dropped.map Prod.fst)
    ↔ k ∈ ov.map Prod.fst := by
  induction ov generalizing g with
  | nil => simp [applyOverridesGo]
  | cons kv rest ih =>
      by_cases h : graphHasToken g (placeholderToken kv.1)
      · simp only [applyOverridesGo, if_pos h, List.map_cons, List.mem_cons]
        rw [← ih (substToken g (placeholderToken kv.1) kv.2)]
        tauto
      · simp only [applyOverridesGo, if_neg h, List.map_cons, List.mem_cons]
        rw [← ih g]
        tauto

/-- With distinct override keys no key is both applied and dropped. -/
theorem applyOverridesGo_disjoint (g : Graph) (ov : List (String × PyVal)) (k : String) :
    (ov.map Prod.fst).Nodup →
    ¬ (k ∈ (applyOverridesGo g ov).2.applied.map Prod.fst
       ∧ k ∈ (applyOverridesGo g ov).2.dropped.map Prod.fst) := by
  induction ov generalizing g with
  | nil => intro _; simp [applyOverridesGo]
  | cons kv rest ih =>
      intro hnd
      have hnd' : (rest.map Prod.fst).Nodup := by
        simpa using (List.nodup_cons.mp (by simpa using hnd)).2
      have hkv : kv.1 ∉ rest.map Prod.fst :=
        (List.nodup_cons.mp (by simpa using hnd)).1
      by_cases h : graphHasToken g (placeholderToken kv.1)
      · simp only [applyOverridesGo, if_pos h, List.map_cons, List.mem_cons]
        rintro ⟨(hk | ha), hd⟩
        · exact hkv (hk ▸ (applyOverridesGo_keys _ rest k).mp (Or.inr hd))
        · exact ih (substToken g (placeholderToken kv.1) kv.2) hnd' ⟨ha, hd⟩
      · simp only [applyOverridesGo, if_neg h, List.map_cons, List.mem_cons]
        rintro ⟨ha, (hk | hd)⟩
        · exact hkv (hk ▸ (applyOverridesGo_keys g rest k).mp (Or.inl ha))
        · exact ih g hnd' ⟨ha, hd⟩

/-- Every dropped entry's reason is the fixed sentence naming the searched
placeholder token. -/
theorem applyOverridesGo_dropped_reason (g : Graph) (ov : List (String × PyVal)) :
    ∀ kr ∈ (applyOverridesGo g ov).2.dropped,
      kr.2 = "no placeholder " ++ placeholderToken kr.1 ++ " found in workflow" := by
  induction ov generalizing g with
  | nil => simp [applyOverridesGo]
  | cons kv rest ih =>
      intro kr hkr
      by_cases h : graphHasToken g (placeholderToken kv.1)
      · simp only [applyOverridesGo, if_pos h] at hkr
        exact ih (substToken g (placeholderToken kv.1) kv.2) kr hkr
      · simp only [applyOverridesGo, if_neg h, List.mem_cons] at hkr
        rcases hkr with hk | hkr
        · rw [hk]
        · exact ih g kr hkr

/-- C4: for any override map with distinct keys, the report partitions the
keys — applied ∪ dropped equals the override key set, the two are disjoint —
and each dropped reason names the searched token `PARAM_<UPPERCASED KEY>`. -/
theorem c4_override_partition (g : Graph) (ov : List (String × PyVal))
    (hnd : (ov.map Prod.fst).Nodup) :
    (∀ k, (k ∈ (applyOverrides g ov).2.applied.map Prod.fst
            ∨ k ∈ (applyOverrides g ov).2.dropped.map Prod.fst)
          ↔ k ∈ ov.map Prod.fst)
    ∧ (∀ k, ¬ (k ∈ (applyOverrides g ov).2.applied.map Prod.fst
               ∧ k ∈ (applyOverrides g ov).2.dropped.map Prod.fst))
    ∧ (∀ kr ∈ (applyOverrides g ov).2.dropped,
        ∃ u v, kr.2 = u ++ ("PARAM_" ++ strUpper kr.1) ++ v) :=
  ⟨fun k => applyOverridesGo_keys g ov k,
   fun k => applyOverridesGo_disjoint g ov k hnd,
   fun kr hkr =>
     ⟨"no placeholder ", " found in workflow",
      applyOverridesGo_dropped_reason g ov kr hkr⟩⟩

/-- C4 witness: the spec's concrete case — template with `PARAM_PROMPT`
only, overrides `prompt` and `bogus`: `prompt` applied, `bogus` dropped with
a reason naming `PARAM_BOGUS`. -/
theorem c4_override_partition_witness :
    ("prompt" ∈ (applyOverrides [("1", ⟨"A", [("prompt", .str "PARAM_PROMPT")]⟩)]
        [("prompt", .str "hello"), ("bogus", .int 42)]).2.applied.map Prod.fst)
    ∧ ("bogus" ∈ (applyOverrides [("1", ⟨"A", [("prompt", .str "PARAM_PROMPT")]⟩)]
        [("prompt", .str "hello"), ("bogus", .int 42)]).2.dropped.map Prod.fst)
    ∧ ∃ u v,
        ("bogus", "no placeholder PARAM_BOGUS found in workflow").2
          = u ++ ("PARAM_" ++ strUpper ("bogus", "no placeholder PARAM_BOGUS found in workflow").1) ++ v := by
  have h := c4_override_partition [("1", ⟨"A", [("prompt", .str "PARAM_PROMPT")]⟩)]
    [("prompt", .str "hello"), ("bogus", .int 42)] (by decide)
  refine ⟨?_, ?_, ?_⟩
  · exact of_decide_eq_true (by rfl)
  · exact of_decide_eq_true (by rfl)
  · exact h.2.2 ("bogus", "no placeholder PARAM_BOGUS found in workflow")
      (of_decide_eq_true (by rfl))

/-- Coercion never changes which keys are present in the kwargs. -/
theorem coerceKwargs_lookup_isSome (params : List ToolParam)
    (kwargs : List (String × PyVal)) (nm : String) :
    (lookupAssoc (coerceKwargs params kwargs) nm).isSome
      = (lookupAssoc kwargs nm).isSome := by
  induction kwargs with
  | nil => rfl
  | cons kv rest ih =>
      by_cases h : (kv.1 == nm) = true <;>
        cases hf : params.find? (fun p => p.name == kv.1) <;>
          simp [coerceKwargs, lookupAssoc, List.find?, hf, h] at ih ⊢ <;>
            simpa [coerceKwargs, lookupAssoc] using ih

/-- Rendering succeeds whenever every required parameter is supplied or has
a default: render never raises on value shape, only on a missing required
parameter. -/
theorem renderWorkflow_total (params : List ToolParam) :
    ∀ (g : Graph) (args : List (String × PyVal)),
    (∀ p ∈ params, p.required = true →
       (lookupAssoc args p.name).isSome = true ∨ p.default.isSome = true) →
    ∃ g', renderWorkflow g params args = .ok g' := by
  induction params with
  | nil => intro g args _; exact ⟨g, rfl⟩
  | cons p rest ih =>
      intro g args hreq
      have hrest : ∀ q ∈ rest, q.required = true →
          (lookupAssoc args q.name).isSome = true ∨ q.default.isSome = true :=
        fun q hq => hreq q (List.mem_cons_of_mem _ hq)
      cases ha : lookupAssoc args p.name with
      | some v =>
          obtain ⟨g', hg⟩ := ih (substToken g (paramToken p) v) args hrest
          exact ⟨g', by simp [renderWorkflow, ha, hg]⟩
      | none =>
          cases hd : p.default with
          | some d =>
              obtain ⟨g', hg⟩ := ih (substToken g (paramToken p) d) args hrest
              exact ⟨g', by simp [renderWorkflow, ha, hd, hg]⟩
          | none =>
              cases hr : p.required with
              | false =>
                  obtain ⟨g', hg⟩ := ih g args hrest
                  exact ⟨g', by simp [renderWorkflow, ha, hd, hr, hg]⟩
              | true =>
                  rcases hreq p (List.mem_cons_self p rest) hr with hs | hs
                  · rw [ha] at hs; simp at hs
                  · rw [hd] at hs; simp at hs

/-- C5: declared numeric parameters accept numeric-looking strings — a
whitespace-trimmed digit string for `int` becomes the native integer, and it
lands as that integer at the placeholder in the rendered graph; a
float-parseable string becomes the native float; uncoercible strings pass
through unchanged; and rendering never fails when the required parameters
are supplied. -/
theorem c5_parameter_coercion :
    (∀ s, isDigitStr (pyStrip s) = true →
        coerceValue .pint (.str s) = .int (digitsVal (pyStrip s)))
    ∧ (∀ (nm s : String) (g : Graph), isDigitStr (pyStrip s) = true →
        renderPipeline g [⟨nm, .pint, true, Option.none⟩] [(nm, .str s)]
          = .ok (substToken g ("PARAM_INT_" ++ strUpper nm)
                  (.int (digitsVal (pyStrip s)))))
    ∧ (∀ s f, parseFloat? s = Option.some f →
        coerceValue .pfloat (.str s) = .float f)
    ∧ (∀ s, isDigitStr (pyStrip s) = false →
        coerceValue .pint (.str s) = .str s)
    ∧ (∀ s, parseFloat? s = Option.none →
        coerceValue .pfloat (.str s) = .str s)
    ∧ (∀ (g : Graph) (params : List ToolParam) (kwargs : List (String × PyVal)),
        (∀ p ∈ params, p.required = true →
           (lookupAssoc kwargs p.name).isSome = true ∨ p.default.isSome = true) →
        ∃ g', renderPipeline g params kwargs = .ok g') := by
  refine ⟨?_, ?_, ?_, ?_, ?_, ?_⟩
  · intro s hs; simp [coerceValue, hs]
  · intro nm s g hs
    simp [renderPipeline, coerceKwargs, renderWorkflow, lookupAssoc, List.find?,
      coerceValue, hs, paramToken]
  · intro s f hq; simp [coerceValue, hq]
  · intro s hs; simp [coerceValue, hs]
  · intro s hq; simp [coerceValue, hq]
  · intro g params kwargs hreq
    refine renderWorkflow_total params g (coerceKwargs params kwargs) ?_
    intro p hp hr
    rcases hreq p hp hr with hs | hs
    · exact Or.inl (by rw [coerceKwargs_lookup_isSome]; exact hs)
    · exact Or.inr hs

/-- C5 witness: the spec's round-trip — template with `PARAM_INT_STEPS`,
argument `steps="30"` (string), rendered node input `steps = 30` (integer) —
together with concrete float coercions over the full `float()` grammar
(exponent, underscore, special and non-ASCII-digit forms) and an
uncoercible string passed through. -/
theorem c5_parameter_coercion_witness :
    renderPipeline [("1", ⟨"K", [("steps", .str "PARAM_INT_STEPS")]⟩)]
        [⟨"steps", .pint, true, Option.none⟩] [("steps", .str "30")]
      = .ok [("1", ⟨"K", [("steps", .int 30)]⟩)]
    ∧ coerceValue .pfloat (.str "1e3") = .float (.finite 1000)
    ∧ coerceValue .pfloat (.str "1_000.5") = .float (.finite (2001 / 2))
    ∧ coerceValue .pfloat (.str "-inf") = .float .neginf
    ∧ coerceValue .pint (.str "٣") = .int 3
    ∧ coerceValue .pfloat (.str "abc") = .str "abc" := by
  refine ⟨?_, ?_, ?_, ?_, ?_, ?_⟩
  · have h := c5_parameter_coercion.2.1 "steps" "30"
      [("1", ⟨"K", [("steps", .str "PARAM_INT_STEPS")]⟩)] (by decide)
    rw [h]
    rfl
  · exact c5_parameter_coercion.2.2.1 "1e3" (.finite 1000) (by decide)
  · have hval : mkRat 10005 10 = (2001 : ℚ) / 2 := by
      rw [Rat.mkRat_eq_div]; norm_num
    have h := c5_parameter_coercion.2.2.1 "1_000.5"
      (.finite (mkRat 10005 10)) (by decide)
    rw [h, hval]
  · exact c5_parameter_coercion.2.2.1 "-inf" .neginf (by decide)
  · have h := c5_parameter_coercion.1 "٣" (by decide)
    rw [h]
    rfl
  · exact c5_parameter_coercion.2.2.2.2.1 "abc" (by decide)

/-- The readiness loop performs at most `n` probes. -/
theorem waitDelays_probes_le (probe : Nat → Bool) (maxd : ℚ) :
    ∀ n a d, (waitDelays probe maxd n a d).2.2 ≤ n := by
  intro n
  induction n with
  | zero => intro a d; simp [waitDelays]
  | succ m ih =>
      intro a d
      by_cases h : probe a
      · simp [waitDelays, h]
      · by_cases hm : m = 0
        · subst hm; simp [waitDelays, h]
        · have := ih (a + 1) (min (d * 2) maxd)
          simp only [waitDelays, if_neg h, if_neg hm]
          omega

/-- The readiness loop answers `true` exactly when some probe within the
attempt window succeeds (and it stops at the first success). -/
theorem waitDelays_true_iff (probe : Nat → Bool) (maxd : ℚ) :
    ∀ n a d, (waitDelays probe maxd n a d).1 = true
      ↔ ∃ k, a ≤ k ∧ k < a + n ∧ probe k = true := by
  intro n
  induction n with
  | zero =>
      intro a d
      simp only [waitDelays]
      constructor
      · intro hfalse; cases hfalse
      · rintro ⟨k, h1, h2, _⟩; omega
  | succ m ih =>
      intro a d
      by_cases h : probe a
      · simp only [waitDelays, if_pos h]
        exact iff_of_true trivial ⟨a, le_refl _, by omega, h⟩
      · by_cases hm : m = 0
        · subst hm
          simp only [waitDelays, if_neg h, if_pos rfl]
          constructor
          · intro hfalse; cases hfalse
          · rintro ⟨k, h1, h2, hp⟩
            have : k = a := by omega
            rw [this] at hp
            exact absurd hp (by simp [h])
        · simp only [waitDelays, if_neg h, if_neg hm]
          rw [ih (a + 1) (min (d * 2) maxd)]
          constructor
          · rintro ⟨k, h1, h2, hp⟩; exact ⟨k, by omega, by omega, hp⟩
          · rintro ⟨k, h1, h2, hp⟩
            rcases Nat.eq_or_lt_of_le h1 with heq | hlt
            · rw [← heq] at hp; exact absurd hp (by simp [h])
            · exact ⟨k, by omega, by omega, hp⟩

/-- Capped doubling composes: one doubling step followed by `j` capped
doublings equals `j + 1` capped doublings. -/
theorem min_doubling_pow (d maxd : ℚ) (hM : 0 ≤ maxd) (j : Nat) :
    min (min (d * 2) maxd * 2 ^ j) maxd = min (d * 2 ^ (j + 1)) maxd := by
  have h2j : (0 : ℚ) ≤ 2 ^ j := by positivity
  rw [min_mul_of_nonneg _ _ h2j, min_assoc]
  have hcap : min (maxd * 2 ^ j) maxd = maxd := by
    apply min_eq_right
    calc maxd = maxd * 1 := (mul_one _).symm
    _ ≤ maxd * 2 ^ j :=
        mul_le_mul_of_nonneg_left (one_le_pow₀ one_le_two) hM
  rw [hcap, pow_succ]
  ring_nf

/-- One unfolding of the loop at a failed, non-final attempt. -/
theorem waitDelays_step (probe : Nat → Bool) (maxd : ℚ) (m a : Nat) (d : ℚ)
    (h : ¬ probe a = true) (hm : m ≠ 0) :
    waitDelays probe maxd (m + 1) a d
      = ((waitDelays probe maxd m (a + 1) (min (d * 2) maxd)).1,
         d :: (waitDelays probe maxd m (a + 1) (min (d * 2) maxd)).2.1,
         (waitDelays probe maxd m (a + 1) (min (d * 2) maxd)).2.2 + 1) := by
  simp [waitDelays, h, hm]

/-- The sleep before the `i`-th retry (0-indexed) is
`min (d * 2 ^ i) maxd`, provided the starting delay respects the cap. -/
theorem waitDelays_delay_formula (probe : Nat → Bool) (maxd : ℚ) :
    ∀ n a d, 0 ≤ d → d ≤ maxd →
    ∀ i, i < (waitDelays probe maxd n a d).2.1.length →
      (waitDelays probe maxd n a d).2.1[i]? = Option.some (min (d * 2 ^ i) maxd) := by
  intro n
  induction n with
  | zero => intro a d _ _ i hi; simp [waitDelays] at hi
  | succ m ih =>
      intro a d h0 hdm i hi
      by_cases h : probe a
      · simp [waitDelays, h] at hi
      · by_cases hm : m = 0
        · subst hm; simp [waitDelays, h] at hi
        · have hM0 : (0 : ℚ) ≤ maxd := le_trans h0 hdm
          have hd2 : (0 : ℚ) ≤ min (d * 2) maxd := le_min (by linarith) hM0
          have hd2m : min (d * 2) maxd ≤ maxd := min_le_right _ _
          rw [waitDelays_step probe maxd m a d h hm] at hi ⊢
          cases i with
          | zero =>
              simp only [List.getElem?_cons_zero]
              rw [pow_zero, mul_one, min_eq_left hdm]
          | succ j =>
              simp only [List.getElem?_cons_succ]
              simp only [List.length_cons, Nat.add_lt_add_iff_right] at hi
              rw [ih (a + 1) (min (d * 2) maxd) hd2 hd2m j hi,
                min_doubling_pow d maxd hM0 j]

/-- C6 counterexample: with `initial_delay = 3` and `max_delay = 1` the
sleep before the first retry is the uncapped 3, not
`min (3 * 2 ^ 0) 1 = 1` as the claim's formula requires. -/
theorem c6_counterexample :
    (wait_for_comfyui (fun _ => false) 2 3 1).2.1 = [3]
    ∧ ¬ ((3 : ℚ) = min ((3 : ℚ) * 2 ^ (1 - 1)) 1) := by
  constructor
  · rfl
  · intro hcontra
    rw [pow_zero, mul_one] at hcontra
    have : min (3 : ℚ) 1 = 1 := min_eq_right (by norm_num)
    rw [this] at hcontra
    norm_num at hcontra

/-- C6 (amended): `wait_for_comfyui` performs at most `max_retries` probes,
returns `true` exactly when some probe in the window succeeds (and `false`
when all are exhausted), and — provided
`0 ≤ initial_delay ≤ max_delay` — the sleep before the `k`-th retry
(1-indexed, i.e. list index `k - 1`) is
`min (initial_delay * 2 ^ (k - 1)) max_delay`.  Without that proviso the
very first sleep is the uncapped `initial_delay` itself. -/
theorem c6_backoff_amended (probe : Nat → Bool) (n : Nat) (I M : ℚ)
    (h0 : 0 ≤ I) (hIM : I ≤ M) :
    (wait_for_comfyui probe n I M).2.2 ≤ n
    ∧ ((wait_for_comfyui probe n I M).1 = true
        ↔ ∃ k, 1 ≤ k ∧ k ≤ n ∧ probe k = true)
    ∧ ∀ i, i < (wait_for_comfyui probe n I M).2.1.length →
        (wait_for_comfyui probe n I M).2.1[i]? = Option.some (min (I * 2 ^ i) M) := by
  refine ⟨waitDelays_probes_le probe M n 1 I, ?_, ?_⟩
  · rw [wait_for_comfyui, waitDelays_true_iff probe M n 1 I]
    constructor
    · rintro ⟨k, h1, h2, hp⟩; exact ⟨k, h1, by omega, hp⟩
    · rintro ⟨k, h1, h2, hp⟩; exact ⟨k, h1, by omega, hp⟩
  · exact waitDelays_delay_formula probe M n 1 I h0 hIM

/-- C6 amended witness: probing succeeds on attempt 2 of 3 with delays
2 and cap 16: at most 3 probes, result `true`, first sleep `min (2·2^0) 16 = 2`. -/
theorem c6_backoff_amended_witness :
    (wait_for_comfyui (fun k => decide (k = 2)) 3 2 16).2.2 ≤ 3
    ∧ (wait_for_comfyui (fun k => decide (k = 2)) 3 2 16).1 = true :=
  have h := c6_backoff_amended (fun k => decide (k = 2)) 3 2 16
    (by norm_num) (by norm_num)
  ⟨h.1, h.2.1.mpr ⟨2, by omega, by omega, by decide⟩⟩

/-- C7: a workflow tool whose declared parameter set has no entry named
`model` never performs model-availability validation — neither the
pre-submission default-model check nor the model-related error-recovery path
runs, whatever the namespace, arguments, defaults state or body outcome —
and the response is exactly the plain outcome of the body (pass-through on
success, `{"error": str(exc)}` on a raised exception). -/
theorem c7_no_model_validation (defn : ToolDefn) (dm dmR : DefaultsMgr)
    (args : List (String × PyVal)) (ns : String)
    (body : Except String (List (String × PyVal)))
    (hno : defn.parameters.find? (fun p => p.name == "model") = Option.none) :
    (toolImplValidate defn dm dmR args ns body).preModelCheckRan = false
    ∧ (toolImplValidate defn dm dmR args ns body).recoveryModelCheckRan = false
    ∧ (toolImplValidate defn dm dmR args ns body).response
        = (match body with
           | .ok r => r
           | .error e => [("error", .str e)]) := by
  cases body with
  | ok r => refine ⟨?_, ?_, ?_⟩ <;> simp [toolImplValidate, hno]
  | error e => refine ⟨?_, ?_, ?_⟩ <;> simp [toolImplValidate, hno]

/-- C7 witness: a model-free tool hit by an exception mentioning "model"
still skips both validation paths and reports the raw error. -/
theorem c7_no_model_validation_witness :
    (toolImplValidate
        ⟨"my_custom_sfx", "tool_my_custom_sfx",
         [⟨"prompt", .pstr, true, Option.none⟩], ["audio"], ""⟩
        ⟨fun _ _ _ => Option.none, fun _ _ => false,
         fun _ => (true, "", ""), []⟩
        ⟨fun _ _ _ => Option.none, fun _ _ => false,
         fun _ => (true, "", ""), []⟩
        [("prompt", .str "hi")] "audio"
        (.error "model not found")).preModelCheckRan = false
    ∧ (toolImplValidate
        ⟨"my_custom_sfx", "tool_my_custom_sfx",
         [⟨"prompt", .pstr, true, Option.none⟩], ["audio"], ""⟩
        ⟨fun _ _ _ => Option.none, fun _ _ => false,
         fun _ => (true, "", ""), []⟩
        ⟨fun _ _ _ => Option.none, fun _ _ => false,
         fun _ => (true, "", ""), []⟩
        [("prompt", .str "hi")] "audio"
        (.error "model not found")).recoveryModelCheckRan = false :=
  have h := c7_no_model_validation
    ⟨"my_custom_sfx", "tool_my_custom_sfx",
     [⟨"prompt", .pstr, true, Option.none⟩], ["audio"], ""⟩
    ⟨fun _ _ _ => Option.none, fun _ _ => false, fun _ => (true, "", ""), []⟩
    ⟨fun _ _ _ => Option.none, fun _ _ => false, fun _ => (true, "", ""), []⟩
    [("prompt", .str "hi")] "audio" (.error "model not found") (by rfl)
  ⟨h.1, h.2.1⟩

/-- Replacing one element keeps the list length. -/
theorem replaceFirst_length {α : Type} (p : α → Bool) (x : α) :
    ∀ l : List α, (replaceFirst p x l).length = l.length := by
  intro l
  induction l with
  | nil => rfl
  | cons y ys ih => by_cases h : p y <;> simp [replaceFirst, h, ih]

/-- `find?` skips a prefix in which nothing matches. -/
theorem find?_append_of_none {α : Type} (p : α → Bool) (l1 l2 : List α)
    (h : l1.find? p = Option.none) : (l1 ++ l2).find? p = l2.find? p := by
  induction l1 with
  | nil => rfl
  | cons y ys ih =>
      by_cases hy : p y
      · rw [List.find?_cons_of_pos ys hy] at h; cases h
      · rw [List.find?_cons_of_neg ys (by simpa using hy)] at h
        simpa [List.find?_cons_of_neg _ (by simpa using hy)] using ih h

/-- C9: registering the same `(filename, subfolder, folderType)` triple
twice yields the same asset id both times, and after the pair of calls the
registry holds exactly one more record than before: the second registration
merges into the record the first one created instead of duplicating it. -/
theorem c9_idempotent_registration {ω : Type} (reg : List (AssetRecord ω))
    (now ttl : Nat) (d d2 : AssetDescriptor ω)
    (hfn : d2.filename = d.filename) (hsf : d2.subfolder = d.subfolder)
    (hft : d2.folder_type = d.folder_type)
    (hfresh : ∀ r ∈ reg, r.asset_id ≠ assetIdOf d.filename d.subfolder d.folder_type)
    (httl : 0 < ttl) :
    (register_asset (register_asset reg now ttl d).1 now ttl d2).2.asset_id
      = (register_asset reg now ttl d).2.asset_id
    ∧ (register_asset (register_asset reg now ttl d).1 now ttl d2).1.length
      = reg.length + 1 := by
  have hnone : reg.find?
      (liveWithId now (assetIdOf d.filename d.subfolder d.folder_type))
      = Option.none := by
    rw [List.find?_eq_none]
    rintro r hr
    simp only [liveWithId, Bool.and_eq_true, beq_iff_eq, decide_eq_true_eq, not_and]
    intro hid _
    exact hfresh r hr hid
  simp only [register_asset, hnone, hfn, hsf, hft]
  rw [find?_append_of_none _ _ _ hnone]
  simp [liveWithId, List.find?, replaceFirst_length, httl, mergeRecord]

/-- C9 witness: registering `("a.png", "", "output")` twice in an empty
registry gives the same id and exactly one record. -/
theorem c9_idempotent_registration_witness :
    (register_asset
        (register_asset ([] : List (AssetRecord PyVal)) 0 24
          { filename := "a.png", subfolder := "", folder_type := "output",
            workflow_id := "generate_image", prompt_id := "p1" }).1 0 24
        { filename := "a.png", subfolder := "", folder_type := "output",
          workflow_id := "generate_image", prompt_id := "p2" }).2.asset_id
      = (register_asset ([] : List (AssetRecord PyVal)) 0 24
          { filename := "a.png", subfolder := "", folder_type := "output",
            workflow_id := "generate_image", prompt_id := "p1" }).2.asset_id
    ∧ (register_asset
        (register_asset ([] : List (AssetRecord PyVal)) 0 24
          { filename := "a.png", subfolder := "", folder_type := "output",
            workflow_id := "generate_image", prompt_id := "p1" }).1 0 24
        { filename := "a.png", subfolder := "", folder_type := "output",
          workflow_id := "generate_image", prompt_id := "p2" }).1.length
      = 0 + 1 :=
  c9_idempotent_registration [] 0 24
    { filename := "a.png", subfolder := "", folder_type := "output",
      workflow_id := "generate_image", prompt_id := "p1" }
    { filename := "a.png", subfolder := "", folder_type := "output",
      workflow_id := "generate_image", prompt_id := "p2" }
    rfl rfl rfl (by simp) (by decide)

/-- Allocation does not disturb existing cells. -/
theorem Heap.read_alloc_of_lt (h : Heap) (g : Graph) (r : Nat)
    (hr : r < h.cells.length) : (h.alloc g).1.read r = h.read r := by
  simp only [Heap.alloc, Heap.read]
  rw [List.getD_eq_getElem?_getD, List.getElem?_append_left hr,
    ← List.getD_eq_getElem?_getD]

/-- Writing one cell does not disturb the others. -/
theorem Heap.read_write_of_ne (h : Heap) (r i : Nat) (g : Graph)
    (hne : i ≠ r) : (h.write r g).read i = h.read i := by
  simp only [Heap.write, Heap.read]
  rw [List.getD_eq_getElem?_getD, List.getElem?_set_ne (by omega),
    ← List.getD_eq_getElem?_getD]

/-- `find?` still hits an element of the prefix after appending. -/
theorem find?_append_of_some {α : Type} (p : α → Bool) (l1 l2 : List α)
    (a : α) (h : l1.find? p = Option.some a) :
    (l1 ++ l2).find? p = Option.some a := by
  induction l1 with
  | nil => cases h
  | cons y ys ih =>
      by_cases hy : p y
      · rw [List.find?_cons_of_pos ys hy] at h
        simpa [List.find?_cons_of_pos _ hy] using h
      · rw [List.find?_cons_of_neg ys (by simpa using hy)] at h
        simpa [List.find?_cons_of_neg _ (by simpa using hy)] using ih h

/-- Replacing the first `q`-match does not change a `find?` for a predicate
that no `q`-match (nor the replacement) satisfies. -/
theorem find?_replaceFirst_of_none {α : Type} (p q : α → Bool) (x : α)
    (hx : p x = false) (himp : ∀ y, q y = true → p y = false) :
    ∀ l : List α, (replaceFirst q x l).find? p = l.find? p := by
  intro l
  induction l with
  | nil => rfl
  | cons y ys ih =>
      by_cases hq : q y
      · have hpy : p y = false := himp y hq
        have hrw : replaceFirst q x (y :: ys) = x :: ys := by
          simp [replaceFirst, hq]
        rw [hrw, List.find?_cons_of_neg ys (by simp [hx]),
          List.find?_cons_of_neg ys (by simp [hpy])]
      · have hrw : replaceFirst q x (y :: ys) = y :: replaceFirst q x ys := by
          simp [replaceFirst, hq]
        rw [hrw]
        by_cases hp : p y
        · rw [List.find?_cons_of_pos _ hp, List.find?_cons_of_pos _ hp]
        · rw [List.find?_cons_of_neg _ (by simpa using hp),
            List.find?_cons_of_neg _ (by simpa using hp)]
          exact ih

/-- Replacing the first `p`-match with a value that itself satisfies `p`
makes that value the `find?` answer. -/
theorem find?_replaceFirst_self {α : Type} (p : α → Bool) (x : α)
    (hx : p x = true) :
    ∀ l : List α, (l.find? p).isSome = true →
      (replaceFirst p x l).find? p = Option.some x := by
  intro l
  induction l with
  | nil => intro hsome; cases hsome
  | cons y ys ih =>
      intro hsome
      by_cases hy : p y
      · have hrw : replaceFirst p x (y :: ys) = x :: ys := by
          simp [replaceFirst, hy]
        rw [hrw, List.find?_cons_of_pos _ hx]
      · have hrw : replaceFirst p x (y :: ys) = y :: replaceFirst p x ys := by
          simp [replaceFirst, hy]
        rw [List.find?_cons_of_neg ys (by simpa using hy)] at hsome
        rw [hrw, List.find?_cons_of_neg _ (by simpa using hy)]
        exact ih hsome

/-- Registration (of any descriptor) keeps an unexpired record visible under
its id and never touches its stored submitted-workflow payload. -/
theorem get_asset_register_preserves {ω : Type} (reg : List (AssetRecord ω))
    (now ttl : Nat) (d : AssetDescriptor ω) (aid : String) (a : AssetRecord ω)
    (hget : get_asset reg now aid = Option.some a) :
    ∃ a', get_asset (register_asset reg now ttl d).1 now aid = Option.some a'
      ∧ a'.submitted_workflow = a.submitted_workflow := by
  cases hf : reg.find?
      (liveWithId now (assetIdOf d.filename d.subfolder d.folder_type)) with
  | none =>
      refine ⟨a, ?_, rfl⟩
      simp only [register_asset, hf, get_asset]
      exact find?_append_of_some _ _ _ _ hget
  | some r0 =>
      by_cases haid : assetIdOf d.filename d.subfolder d.folder_type = aid
      · subst haid
        have hr0 : r0 = a := by
          simp only [get_asset] at hget
          rw [hf] at hget
          exact Option.some_inj.mp hget
        subst hr0
        simp only [register_asset, hf, get_asset]
        exact ⟨mergeRecord r0 d,
          find?_replaceFirst_self _ (mergeRecord r0 d)
            (by simpa [mergeRecord, liveWithId] using List.find?_some hf)
            reg (by simp [hf]), rfl⟩
      · have hq0 := List.find?_some hf
        simp only [liveWithId, Bool.and_eq_true, beq_iff_eq] at hq0
        refine ⟨a, ?_, rfl⟩
        simp only [register_asset, hf, get_asset]
        rw [find?_replaceFirst_of_none]
        · exact hget
        · have h1 : (r0.asset_id == aid) = false := by
            rw [beq_eq_false_iff_ne, hq0.1]
            exact haid
          have h2 : ((mergeRecord r0 d).asset_id == aid) = false := h1
          simp [liveWithId, h2]
        · intro y hy
          simp only [liveWithId, Bool.and_eq_true, beq_iff_eq] at hy
          have h1 : (y.asset_id == aid) = false := by
            rw [beq_eq_false_iff_ne, hy.1]
            exact haid
          simp [liveWithId, h1]

/-- C10: `regenerate` leaves the stored submitted workflow unchanged — the
parameter overrides and seed update are applied to a deep copy of the stored
graph, so the original asset's heap cell is untouched and, after the call,
the registry still resolves the asset to that same graph cell: repeated
regenerations always start from the original submitted graph. -/
theorem c10_regenerate_frame (h : Heap) (reg : List (AssetRecord Nat))
    (now ttl : Nat) (aid : String) (seed : Option Int)
    (ov : Option (List (String × PyVal))) (rs : Int)
    (backend : Nat → Option (List String) → Graph → Except String RunResultRef)
    (a : AssetRecord Nat) (wref : Nat)
    (hget : get_asset reg now aid = Option.some a)
    (hwf : a.submitted_workflow = Option.some wref)
    (hvalid : wref < h.cells.length) :
    (regenerate h reg now ttl aid seed ov rs backend).heap.read wref = h.read wref
    ∧ ∃ a', get_asset (regenerate h reg now ttl aid seed ov rs backend).registry
          now aid = Option.some a'
        ∧ a'.submitted_workflow = Option.some wref := by
  have hne : wref ≠ (h.alloc (h.read wref)).2 := by
    simp only [Heap.alloc]
    omega
  have f1 : (h.alloc (h.read wref)).1.read wref = h.read wref :=
    Heap.read_alloc_of_lt h _ wref hvalid
  have hreg : ∀ result : RunResultRef,
      ∃ a', get_asset (registerEffect result a.workflow_id reg now ttl
              (Option.some "regenerate") a.session_id) now aid = Option.some a'
        ∧ a'.submitted_workflow = Option.some wref := by
    intro result
    unfold registerEffect
    by_cases hst : (result.status == "running") = true
    · simp only [if_pos hst]
      exact ⟨a, hget, hwf⟩
    · simp only [if_neg hst]
      obtain ⟨a', ha1, ha2⟩ :=
        get_asset_register_preserves reg now ttl _ aid a hget
      exact ⟨a', ha1, by rw [ha2]; exact hwf⟩
  by_cases hemp : (h.read wref).isEmpty = true
  · simp only [regenerate, hget, hwf, if_pos hemp]
    exact ⟨trivial, a, rfl, hwf⟩
  · cases ov with
    | none =>
        simp only [regenerate, hget, hwf, if_neg hemp]
        split
        · exact ⟨by rw [Heap.read_write_of_ne _ _ _ _ hne, f1], a, hget, hwf⟩
        · exact ⟨by rw [Heap.read_write_of_ne _ _ _ _ hne, f1], hreg _⟩
    | some l =>
        by_cases hl : l.isEmpty = true
        · simp only [regenerate, hget, hwf, if_neg hemp, if_pos hl]
          split
          · exact ⟨by rw [Heap.read_write_of_ne _ _ _ _ hne, f1], a, hget, hwf⟩
          · exact ⟨by rw [Heap.read_write_of_ne _ _ _ _ hne, f1], hreg _⟩
        · simp only [regenerate, hget, hwf, if_neg hemp, if_neg hl]
          split
          · exact ⟨by rw [Heap.read_write_of_ne _ _ _ _ hne,
              Heap.read_write_of_ne _ _ _ _ hne, f1], a, hget, hwf⟩
          · exact ⟨by rw [Heap.read_write_of_ne _ _ _ _ hne,
              Heap.read_write_of_ne _ _ _ _ hne, f1], hreg _⟩

/-- C10 witness: a concrete asset whose stored workflow lives in heap cell 0
is regenerated with a prompt override and a fresh seed; cell 0 still holds
the original graph and the registry still points the asset at cell 0. -/
theorem c10_regenerate_frame_witness :
    (regenerate ⟨[[("3", ⟨"KSampler", [("seed", .int 1), ("steps", .int 20)]⟩)]]⟩
        [{ asset_id := "a.png||output", filename := "a.png", subfolder := "",
           folder_type := "output", workflow_id := "generate_image",
           prompt_id := "p1", submitted_workflow := Option.some 0,
           created_at := 0, expires_at := 10 }]
        0 24 "a.png||output" Option.none
        (Option.some [("steps", .int 30)]) 7
        (fun _ _ _ => .ok { status := "completed", filename := "b.png" })).heap.read 0
      = Heap.read ⟨[[("3", ⟨"KSampler", [("seed", .int 1), ("steps", .int 20)]⟩)]]⟩ 0
    ∧ ∃ a', get_asset
        (regenerate ⟨[[("3", ⟨"KSampler", [("seed", .int 1), ("steps", .int 20)]⟩)]]⟩
          [{ asset_id := "a.png||output", filename := "a.png", subfolder := "",
             folder_type := "output", workflow_id := "generate_image",
             prompt_id := "p1", submitted_workflow := Option.some 0,
             created_at := 0, expires_at := 10 }]
          0 24 "a.png||output" Option.none
          (Option.some [("steps", .int 30)]) 7
          (fun _ _ _ => .ok { status := "completed", filename := "b.png" })).registry
        0 "a.png||output" = Option.some a'
      ∧ a'.submitted_workflow = Option.some 0 :=
  c10_regenerate_frame
    ⟨[[("3", ⟨"KSampler", [("seed", .int 1), ("steps", .int 20)]⟩)]]⟩
    [{ asset_id := "a.png||output", filename := "a.png", subfolder := "",
       folder_type := "output", workflow_id := "generate_image",
       prompt_id := "p1", submitted_workflow := Option.some 0,
       created_at := 0, expires_at := 10 }]
    0 24 "a.png||output" Option.none (Option.some [("steps", .int 30)]) 7
    (fun _ _ _ => .ok { status := "completed", filename := "b.png" })
    { asset_id := "a.png||output", filename := "a.png", subfolder := "",
      folder_type := "output", workflow_id := "generate_image",
      prompt_id := "p1", submitted_workflow := Option.some 0,
      created_at := 0, expires_at := 10 }
    0 (by rfl) rfl (by decide)

end ComfyMCP
